import Mathlib

/-!
Verification of the `winreg` package (src/winreg.go), a thin wrapper over the
Windows registry API (`golang.org/x/sys/windows/registry`).

The registry itself is an external OS facility; we embed it shallowly as an
explicit state: a set of keys (root + path), an association list of typed
values, and an access-control list of keys whose opening is denied.  Each OS
call of the `registry` package is modelled as a pure function on that state,
and each Go function of the package is translated line by line to a Lean
function threading the state.  The state additionally records the number of
currently open key handles and the log of access rights requested by key
opens, so that handle discipline and access-right selection are provable
properties of the definitions.

Machine integers are modelled as `Nat` / `Int` with explicit reduction
modulo 4294967296 (2^32) and 18446744073709551616 (2^64) where the Go code
uses `uint32` / `uint64` / `int32` / `int64`.
-/

namespace Winreg

/-- Predefined registry root (an `HKEY_*` constant of the `registry` package). -/
abbrev Root := Nat

/-- Identity of a registry key: a root and a backslash-delimited path under it. -/
structure KeyId where
  root : Root
  path : String
  deriving DecidableEq

/-- A typed registry value datum, one constructor per registry value type. -/
inductive RegVal where
  | dword (v : Nat)
  | qword (v : Nat)
  | sz (s : String)
  | expandSz (s : String)
  | multiSz (ss : List String)
  | binary (bs : List Nat)
  deriving DecidableEq

/-- Errors reported by the modelled OS registry calls. -/
inductive RegError where
  | keyNotFound
  | accessDenied
  | valueNotFound
  | typeMismatch
  deriving DecidableEq

/-- The OS registry content: existing keys, stored (key, name, data) values,
and the keys whose opening the ACL denies. -/
structure Registry where
  keys : List KeyId
  vals : List (KeyId × String × RegVal)
  denied : List KeyId

/-- Whether a key exists in the registry. -/
def keyPresent (reg : Registry) (k : KeyId) : Bool :=
  reg.keys.any (fun x => decide (x = k))

/-- Whether the ACL denies opening the key. -/
def deniedIn (reg : Registry) (k : KeyId) : Bool :=
  reg.denied.any (fun x => decide (x = k))

/-- The value stored under `(k, name)`, if any. -/
def lookupVal (reg : Registry) (k : KeyId) (name : String) : Option RegVal :=
  (reg.vals.find? (fun e => decide (e.1 = k) && decide (e.2.1 = name))).map (fun e => e.2.2)

/-- Store `v` under `(k, name)`, replacing any previous value of that name. -/
def setVal (reg : Registry) (k : KeyId) (name : String) (v : RegVal) : Registry :=
  { reg with vals := (k, name, v) ::
      reg.vals.filter (fun e => !(decide (e.1 = k) && decide (e.2.1 = name))) }

/-- Remove the value stored under `(k, name)`. -/
def removeVal (reg : Registry) (k : KeyId) (name : String) : Registry :=
  { reg with vals :=
      reg.vals.filter (fun e => !(decide (e.1 = k) && decide (e.2.1 = name))) }

/-- Remove a key and all values stored under it. -/
def removeKey (reg : Registry) (k : KeyId) : Registry :=
  { reg with
      keys := reg.keys.filter (fun x => !decide (x = k)),
      vals := reg.vals.filter (fun e => !decide (e.1 = k)) }

/-- Add a key if it is not already present (`RegCreateKeyEx` on a fresh path). -/
def addKey (reg : Registry) (k : KeyId) : Registry :=
  if keyPresent reg k then reg else { reg with keys := reg.keys ++ [k] }

/-- The names of all values stored under `k` (`ReadValueNames`). -/
def readValueNames (reg : Registry) (k : KeyId) : List String :=
  (reg.vals.filter (fun e => decide (e.1 = k))).map (fun e => e.2.1)

/-- Name of `q` as an immediate child of key path `p`
(`q = p ++ "\\" ++ name` with `name` nonempty and backslash-free), if so. -/
def childOf (p q : String) : Option String :=
  let pl := p.toList
  let ql := q.toList
  if ql.take (pl.length + 1) = pl ++ ['\\'] then
    let rest := ql.drop (pl.length + 1)
    if !rest.isEmpty && !(rest.contains '\\') then some (String.mk rest) else none
  else none

/-- The names of the immediate subkeys of `k` (`ReadSubKeyNames`). -/
def readSubKeyNames (reg : Registry) (k : KeyId) : List String :=
  reg.keys.filterMap (fun x => if x.root = k.root then childOf k.path x.path else none)

/-- Full modelled state: the registry plus the number of currently open key
handles and the log of access rights passed to key opens. -/
structure RegState where
  reg : Registry
  handles : Nat
  opens : List Nat

/-! Access rights, numeric values as in `golang.org/x/sys/windows/registry`. -/

/-- `registry.QUERY_VALUE` (0x00001). -/
def QUERY_VALUE : Nat := 1

/-- `registry.WRITE` (0x20006). -/
def WRITE : Nat := 131078

/-- `registry.ENUMERATE_SUB_KEYS` (0x00008). -/
def ENUMERATE_SUB_KEYS : Nat := 8

/-- `registry.ALL_ACCESS` (0xf003f). -/
def ALL_ACCESS : Nat := 983103

/-- Outcome of attempting to open key `k`: the key must exist and must not be
denied by the ACL. -/
def openResult (reg : Registry) (k : KeyId) : Except RegError KeyId :=
  if keyPresent reg k then
    if deniedIn reg k then .error .accessDenied else .ok k
  else .error .keyNotFound

/-- `registry.OpenKey root path access`: logs the requested access right,
and on success opens a handle (incrementing the open-handle count). -/
def openKey (st : RegState) (root : Root) (path : String) (access : Nat) :
    Except RegError KeyId × RegState :=
  match openResult st.reg ⟨root, path⟩ with
  | .error e => (.error e, { st with opens := st.opens ++ [access] })
  | .ok k => (.ok k, { st with opens := st.opens ++ [access], handles := st.handles + 1 })

/-- `k.Close()`: releases one open handle. -/
def closeKey (st : RegState) : RegState :=
  { st with handles := st.handles - 1 }

/-! The typed OS getters (`k.Get*Value`), pure functions of the registry. -/

/-- `k.GetDWordValue name`: the stored datum must be a DWORD; the OS storage
holds 32 bits, so the datum is read reduced modulo 4294967296 (2^32). -/
def getDWordValue (reg : Registry) (k : KeyId) (name : String) : Except RegError Nat :=
  match lookupVal reg k name with
  | some (.dword v) => .ok (v % 4294967296)
  | some _ => .error .typeMismatch
  | none => .error .valueNotFound

/-- `k.GetQWordValue name`: the stored datum must be a QWORD; the OS storage
holds 64 bits, so the datum is read reduced modulo 2^64. -/
def getQWordValue (reg : Registry) (k : KeyId) (name : String) : Except RegError Nat :=
  match lookupVal reg k name with
  | some (.qword v) => .ok (v % 18446744073709551616)
  | some _ => .error .typeMismatch
  | none => .error .valueNotFound

/-- `k.GetBinaryValue name`: the stored datum must be binary. -/
def getBinaryValue (reg : Registry) (k : KeyId) (name : String) : Except RegError (List Nat) :=
  match lookupVal reg k name with
  | some (.binary bs) => .ok bs
  | some _ => .error .typeMismatch
  | none => .error .valueNotFound

/-- `k.GetStringValue name`: succeeds on `REG_SZ` and `REG_EXPAND_SZ` data. -/
def getStringValue (reg : Registry) (k : KeyId) (name : String) : Except RegError String :=
  match lookupVal reg k name with
  | some (.sz s) => .ok s
  | some (.expandSz s) => .ok s
  | some _ => .error .typeMismatch
  | none => .error .valueNotFound

/-- `k.GetExpandStringValue name`: the stored datum must be `REG_EXPAND_SZ`. -/
def getExpandStringValue (reg : Registry) (k : KeyId) (name : String) :
    Except RegError String :=
  match lookupVal reg k name with
  | some (.expandSz s) => .ok s
  | some _ => .error .typeMismatch
  | none => .error .valueNotFound

/-- `k.GetStringsValue name`: the stored datum must be `REG_MULTI_SZ`. -/
def getStringsValue (reg : Registry) (k : KeyId) (name : String) :
    Except RegError (List String) :=
  match lookupVal reg k name with
  | some (.multiSz ss) => .ok ss
  | some _ => .error .typeMismatch
  | none => .error .valueNotFound

/-- `k.GetIntValue name`: reads a 32-bit (DWORD-stored) value as a signed
`int32`, i.e. the two's-complement reading of the stored 32 bits. -/
def getIntValue (reg : Registry) (k : KeyId) (name : String) : Except RegError Int :=
  match lookupVal reg k name with
  | some (.dword v) =>
      .ok (if v % 4294967296 < 2147483648 then ((v % 4294967296 : Nat) : Int)
          else ((v % 4294967296 : Nat) : Int) - 4294967296)
  | some _ => .error .typeMismatch
  | none => .error .valueNotFound

/-! The typed OS setters (`k.Set*Value`). -/

/-- `k.SetDWordValue name d`: stores `d` reduced to 32 bits. -/
def setDWordValue (reg : Registry) (k : KeyId) (name : String) (d : Nat) : Registry :=
  setVal reg k name (.dword (d % 4294967296))

/-- `k.SetQWordValue name d`: stores `d` reduced to 64 bits. -/
def setQWordValue (reg : Registry) (k : KeyId) (name : String) (d : Nat) : Registry :=
  setVal reg k name (.qword (d % 18446744073709551616))

/-- `k.SetBinaryValue name bs`. -/
def setBinaryValue (reg : Registry) (k : KeyId) (name : String) (bs : List Nat) : Registry :=
  setVal reg k name (.binary bs)

/-- `k.SetStringsValue name ss` (`REG_MULTI_SZ`). -/
def setStringsValue (reg : Registry) (k : KeyId) (name : String) (ss : List String) : Registry :=
  setVal reg k name (.multiSz ss)

/-- `k.SetExpandStringValue name s` (`REG_EXPAND_SZ`). -/
def setExpandStringValue (reg : Registry) (k : KeyId) (name : String) (s : String) : Registry :=
  setVal reg k name (.expandSz s)

/-- `k.SetIntValue name d`: stores the two's-complement 32 bits of the
signed 32-bit integer `d` as a DWORD. -/
def setIntValue (reg : Registry) (k : KeyId) (name : String) (d : Int) : Registry :=
  setVal reg k name (.dword (d % 4294967296).toNat)

/-- The `int32(d)` conversion of Go: the two's-complement wrap of `d` to the
signed 32-bit range. -/
def toInt32 (d : Int) : Int := (d + 2147483648) % 4294967296 - 2147483648

/-- `k.DeleteValue name`: deleting a value that is not stored is an error. -/
def osDeleteValue (reg : Registry) (k : KeyId) (name : String) : Except RegError Registry :=
  match lookupVal reg k name with
  | some _ => .ok (removeVal reg k name)
  | none => .error .valueNotFound

/-- `RegDeleteKey` on key `k`: deleting a missing key is an error. -/
def osDeleteKey (reg : Registry) (k : KeyId) : Except RegError Registry :=
  if keyPresent reg k then
    if deniedIn reg k then .error .accessDenied else .ok (removeKey reg k)
  else .error .keyNotFound

/-- `registry.CreateKey root path ALL_ACCESS`: creates the key if missing,
opens it (the handle stays open and is returned to the caller), and logs the
`ALL_ACCESS` request. -/
def createKeyOS (st : RegState) (root : Root) (path : String) :
    Except RegError KeyId × RegState :=
  if deniedIn st.reg ⟨root, path⟩ then
    (.error .accessDenied, { st with opens := st.opens ++ [ALL_ACCESS] })
  else
    (.ok ⟨root, path⟩,
      { st with
          reg := addKey st.reg ⟨root, path⟩,
          opens := st.opens ++ [ALL_ACCESS],
          handles := st.handles + 1 })

/-- `keyPath ++ "\\" ++ subKeyName`, the path of a named subkey. -/
def joinPath (p s : String) : String := p ++ "\\" ++ s

/-! The package's functions (src/winreg.go), translated line by line.
Each takes the modelled state first and returns its Go results as an
`Except` (Go `(value, error)`), paired with the final state. -/

/-- `ReadDWordValue` (winreg.go:10-23). -/
def ReadDWordValue (st : RegState) (root : Root) (keyPath valueName : String) :
    Except RegError Nat × RegState :=
  let o := openKey st root keyPath QUERY_VALUE
  match o.1 with
  | .error e => (.error e, o.2)
  | .ok k =>
    match getDWordValue o.2.reg k valueName with
    | .error e => (.error e, closeKey o.2)
    | .ok value => (.ok value, closeKey o.2)

/-- `WriteDWordValue` (winreg.go:26-38). -/
def WriteDWordValue (st : RegState) (root : Root) (keyPath valueName : String) (data : Nat) :
    Except RegError Unit × RegState :=
  let o := openKey st root keyPath WRITE
  match o.1 with
  | .error e => (.error e, o.2)
  | .ok k => (.ok (), closeKey { o.2 with reg := setDWordValue o.2.reg k valueName data })

/-- `ReadBinaryValue` (winreg.go:41-54). -/
def ReadBinaryValue (st : RegState) (root : Root) (keyPath valueName : String) :
    Except RegError (List Nat) × RegState :=
  let o := openKey st root keyPath QUERY_VALUE
  match o.1 with
  | .error e => (.error e, o.2)
  | .ok k =>
    match getBinaryValue o.2.reg k valueName with
    | .error e => (.error e, closeKey o.2)
    | .ok value => (.ok value, closeKey o.2)

/-- `WriteBinaryValue` (winreg.go:57-69). -/
def WriteBinaryValue (st : RegState) (root : Root) (keyPath valueName : String)
    (data : List Nat) : Except RegError Unit × RegState :=
  let o := openKey st root keyPath WRITE
  match o.1 with
  | .error e => (.error e, o.2)
  | .ok k => (.ok (), closeKey { o.2 with reg := setBinaryValue o.2.reg k valueName data })

/-- `DeleteValue` (winreg.go:72-84). -/
def DeleteValue (st : RegState) (root : Root) (keyPath valueName : String) :
    Except RegError Unit × RegState :=
  let o := openKey st root keyPath WRITE
  match o.1 with
  | .error e => (.error e, o.2)
  | .ok k =>
    match osDeleteValue o.2.reg k valueName with
    | .error e => (.error e, closeKey o.2)
    | .ok reg2 => (.ok (), closeKey { o.2 with reg := reg2 })

/-- `DeleteSubKey` (winreg.go:87-99). -/
def DeleteSubKey (st : RegState) (root : Root) (keyPath subKeyName : String) :
    Except RegError Unit × RegState :=
  let o := openKey st root keyPath WRITE
  match o.1 with
  | .error e => (.error e, o.2)
  | .ok k =>
    match osDeleteKey o.2.reg ⟨k.root, joinPath k.path subKeyName⟩ with
    | .error e => (.error e, closeKey o.2)
    | .ok reg2 => (.ok (), closeKey { o.2 with reg := reg2 })

/-- `KeyExists` (winreg.go:102-109). -/
def KeyExists (st : RegState) (root : Root) (keyPath : String) : Bool × RegState :=
  let o := openKey st root keyPath QUERY_VALUE
  match o.1 with
  | .error _ => (false, o.2)
  | .ok _ => (true, closeKey o.2)

/-- `ValueExists` (winreg.go:112-121). -/
def ValueExists (st : RegState) (root : Root) (keyPath valueName : String) :
    Bool × RegState :=
  let o := openKey st root keyPath QUERY_VALUE
  match o.1 with
  | .error _ => (false, o.2)
  | .ok k =>
    match getStringValue o.2.reg k valueName with
    | .error _ => (false, closeKey o.2)
    | .ok _ => (true, closeKey o.2)

/-- `EnumerateSubKeys` (winreg.go:124-137). -/
def EnumerateSubKeys (st : RegState) (root : Root) (keyPath : String) :
    Except RegError (List String) × RegState :=
  let o := openKey st root keyPath ENUMERATE_SUB_KEYS
  match o.1 with
  | .error e => (.error e, o.2)
  | .ok k => (.ok (readSubKeyNames o.2.reg k), closeKey o.2)

/-- `EnumerateValues` (winreg.go:140-153). -/
def EnumerateValues (st : RegState) (root : Root) (keyPath : String) :
    Except RegError (List String) × RegState :=
  let o := openKey st root keyPath QUERY_VALUE
  match o.1 with
  | .error e => (.error e, o.2)
  | .ok k => (.ok (readValueNames o.2.reg k), closeKey o.2)

/-- `CreateKey` (winreg.go:156-159): direct delegation to `registry.CreateKey`
with `ALL_ACCESS`; the opened handle is returned, not closed. -/
def CreateKey (st : RegState) (root : Root) (keyPath : String) :
    Except RegError KeyId × RegState :=
  createKeyOS st root keyPath

/-- `ReadStringValueWithDefault` (winreg.go:162-175). -/
def ReadStringValueWithDefault (st : RegState) (root : Root)
    (keyPath valueName defaultValue : String) : Except RegError String × RegState :=
  let o := openKey st root keyPath QUERY_VALUE
  match o.1 with
  | .error _ => (.ok defaultValue, o.2)
  | .ok k =>
    match getStringValue o.2.reg k valueName with
    | .error _ => (.ok defaultValue, closeKey o.2)
    | .ok value => (.ok value, closeKey o.2)

/-- `ReadMultiStringValue` (winreg.go:178-191). -/
def ReadMultiStringValue (st : RegState) (root : Root) (keyPath valueName : String) :
    Except RegError (List String) × RegState :=
  let o := openKey st root keyPath QUERY_VALUE
  match o.1 with
  | .error e => (.error e, o.2)
  | .ok k =>
    match getStringsValue o.2.reg k valueName with
    | .error e => (.error e, closeKey o.2)
    | .ok value => (.ok value, closeKey o.2)

/-- `WriteMultiStringValue` (winreg.go:194-206). -/
def WriteMultiStringValue (st : RegState) (root : Root) (keyPath valueName : String)
    (data : List String) : Except RegError Unit × RegState :=
  let o := openKey st root keyPath WRITE
  match o.1 with
  | .error e => (.error e, o.2)
  | .ok k => (.ok (), closeKey { o.2 with reg := setStringsValue o.2.reg k valueName data })

/-- `ReadQWordValue` (winreg.go:209-222). -/
def ReadQWordValue (st : RegState) (root : Root) (keyPath valueName : String) :
    Except RegError Nat × RegState :=
  let o := openKey st root keyPath QUERY_VALUE
  match o.1 with
  | .error e => (.error e, o.2)
  | .ok k =>
    match getQWordValue o.2.reg k valueName with
    | .error e => (.error e, closeKey o.2)
    | .ok value => (.ok value, closeKey o.2)

/-- `WriteQWordValue` (winreg.go:225-237). -/
def WriteQWordValue (st : RegState) (root : Root) (keyPath valueName : String)
    (data : Nat) : Except RegError Unit × RegState :=
  let o := openKey st root keyPath WRITE
  match o.1 with
  | .error e => (.error e, o.2)
  | .ok k => (.ok (), closeKey { o.2 with reg := setQWordValue o.2.reg k valueName data })

/-- `ReadExpandStringValue` (winreg.go:240-253). -/
def ReadExpandStringValue (st : RegState) (root : Root) (keyPath valueName : String) :
    Except RegError String × RegState :=
  let o := openKey st root keyPath QUERY_VALUE
  match o.1 with
  | .error e => (.error e, o.2)
  | .ok k =>
    match getExpandStringValue o.2.reg k valueName with
    | .error e => (.error e, closeKey o.2)
    | .ok value => (.ok value, closeKey o.2)

/-- `WriteExpandStringValue` (winreg.go:256-268). -/
def WriteExpandStringValue (st : RegState) (root : Root) (keyPath valueName data : String) :
    Except RegError Unit × RegState :=
  let o := openKey st root keyPath WRITE
  match o.1 with
  | .error e => (.error e, o.2)
  | .ok k => (.ok (), closeKey { o.2 with reg := setExpandStringValue o.2.reg k valueName data })

/-- `ReadInt32Value` (winreg.go:271-284). -/
def ReadInt32Value (st : RegState) (root : Root) (keyPath valueName : String) :
    Except RegError Int × RegState :=
  let o := openKey st root keyPath QUERY_VALUE
  match o.1 with
  | .error e => (.error e, o.2)
  | .ok k =>
    match getIntValue o.2.reg k valueName with
    | .error e => (.error e, closeKey o.2)
    | .ok value => (.ok value, closeKey o.2)

/-- `WriteInt32Value` (winreg.go:287-299). -/
def WriteInt32Value (st : RegState) (root : Root) (keyPath valueName : String)
    (data : Int) : Except RegError Unit × RegState :=
  let o := openKey st root keyPath WRITE
  match o.1 with
  | .error e => (.error e, o.2)
  | .ok k => (.ok (), closeKey { o.2 with reg := setIntValue o.2.reg k valueName data })

/-- `ReadInt64Value` (winreg.go:302-315): reads via `GetIntValue` and widens
with `int64(value)` (the identity on the mathematical integer). -/
def ReadInt64Value (st : RegState) (root : Root) (keyPath valueName : String) :
    Except RegError Int × RegState :=
  let o := openKey st root keyPath QUERY_VALUE
  match o.1 with
  | .error e => (.error e, o.2)
  | .ok k =>
    match getIntValue o.2.reg k valueName with
    | .error e => (.error e, closeKey o.2)
    | .ok value => (.ok value, closeKey o.2)

/-- `WriteInt64Value` (winreg.go:318-330): narrows its input with `int32(data)`
before storing it via `SetIntValue`. -/
def WriteInt64Value (st : RegState) (root : Root) (keyPath valueName : String)
    (data : Int) : Except RegError Unit × RegState :=
  let o := openKey st root keyPath WRITE
  match o.1 with
  | .error e => (.error e, o.2)
  | .ok k => (.ok (), closeKey { o.2 with reg := setIntValue o.2.reg k valueName (toInt32 data) })

/-- `DeleteKey` (winreg.go:332-335): direct delegation to `registry.DeleteKey`,
no key open of its own. -/
def DeleteKey (st : RegState) (root : Root) (keyPath : String) :
    Except RegError Unit × RegState :=
  match osDeleteKey st.reg ⟨root, keyPath⟩ with
  | .error e => (.error e, st)
  | .ok reg2 => (.ok (), { st with reg := reg2 })

/-- True exactly on error results; a Go caller sees a non-nil error. -/
def isErr {α : Type} : Except RegError α → Bool
  | .error _ => true
  | .ok _ => false

/-- Whether a stored datum can be read by `GetStringValue`. -/
def stringReadable : RegVal → Bool
  | .sz _ => true
  | .expandSz _ => true
  | _ => false

/-! Basic lemmas about the modelled OS layer. -/

theorem openResult_ok {reg : Registry} {k k2 : KeyId} (h : openResult reg k = .ok k2) :
    k2 = k ∧ keyPresent reg k = true ∧ deniedIn reg k = false := by
  unfold openResult at h
  by_cases h1 : keyPresent reg k <;> by_cases h2 : deniedIn reg k <;>
    simp [h1, h2] at h ⊢
  simp [h.symm]

theorem openResult_of_present {reg : Registry} {k : KeyId}
    (h1 : keyPresent reg k = true) (h2 : deniedIn reg k = false) :
    openResult reg k = .ok k := by
  unfold openResult
  simp [h1, h2]

theorem openKey_fst (st : RegState) (root : Root) (p : String) (a : Nat) :
    (openKey st root p a).1 = (openResult st.reg ⟨root, p⟩).map (fun _ => (⟨root, p⟩ : KeyId)) := by
  unfold openKey
  cases h : openResult st.reg ⟨root, p⟩ with
  | error e => simp [Except.map]
  | ok k => simp [Except.map, (openResult_ok h).1]

theorem openKey_snd_reg (st : RegState) (root : Root) (p : String) (a : Nat) :
    ((openKey st root p a).2).reg = st.reg := by
  unfold openKey
  cases h : openResult st.reg ⟨root, p⟩ <;> simp

theorem openKey_snd_opens (st : RegState) (root : Root) (p : String) (a : Nat) :
    ((openKey st root p a).2).opens = st.opens ++ [a] := by
  unfold openKey
  cases h : openResult st.reg ⟨root, p⟩ <;> simp

theorem openKey_fst_ok {st : RegState} {root : Root} {p : String} {a : Nat} {k : KeyId}
    (h : (openKey st root p a).1 = .ok k) :
    k = ⟨root, p⟩ ∧ keyPresent st.reg ⟨root, p⟩ = true ∧ deniedIn st.reg ⟨root, p⟩ = false := by
  rw [openKey_fst] at h
  cases ho : openResult st.reg ⟨root, p⟩ with
  | error e => rw [ho] at h; simp [Except.map] at h
  | ok k2 =>
    rw [ho] at h
    simp [Except.map] at h
    exact ⟨h.symm, (openResult_ok ho).2⟩

theorem openKey_snd_handles_ok {st : RegState} {root : Root} {p : String} {a : Nat} {k : KeyId}
    (h : (openKey st root p a).1 = .ok k) :
    ((openKey st root p a).2).handles = st.handles + 1 := by
  unfold openKey at h ⊢
  cases ho : openResult st.reg ⟨root, p⟩ <;> simp_all

theorem openKey_snd_handles_err {st : RegState} {root : Root} {p : String} {a : Nat} {e : RegError}
    (h : (openKey st root p a).1 = .error e) :
    ((openKey st root p a).2).handles = st.handles := by
  unfold openKey at h ⊢
  cases ho : openResult st.reg ⟨root, p⟩ <;> simp_all

theorem openKey_ok_of_open (st : RegState) (root : Root) (p : String) (a : Nat)
    (h1 : keyPresent st.reg ⟨root, p⟩ = true) (h2 : deniedIn st.reg ⟨root, p⟩ = false) :
    (openKey st root p a).1 = .ok ⟨root, p⟩ := by
  rw [openKey_fst, openResult_of_present h1 h2]
  rfl

theorem closeKey_reg (st : RegState) : (closeKey st).reg = st.reg := rfl

theorem closeKey_opens (st : RegState) : (closeKey st).opens = st.opens := rfl

theorem lookupVal_setVal (reg : Registry) (k : KeyId) (n : String) (v : RegVal) :
    lookupVal (setVal reg k n v) k n = some v := by
  unfold lookupVal setVal
  rw [List.find?_cons_of_pos]
  · rfl
  · simp

theorem setVal_keys (reg : Registry) (k : KeyId) (n : String) (v : RegVal) :
    (setVal reg k n v).keys = reg.keys := rfl

theorem setVal_denied (reg : Registry) (k : KeyId) (n : String) (v : RegVal) :
    (setVal reg k n v).denied = reg.denied := rfl

theorem keyPresent_setVal (reg : Registry) (k k2 : KeyId) (n : String) (v : RegVal) :
    keyPresent (setVal reg k n v) k2 = keyPresent reg k2 := rfl

theorem deniedIn_setVal (reg : Registry) (k k2 : KeyId) (n : String) (v : RegVal) :
    deniedIn (setVal reg k n v) k2 = deniedIn reg k2 := rfl

/-! Per-function state lemmas: handle balance, access-right log, and error
provenance, proved for each function of the package. -/

theorem ReadDWordValue_handles (st : RegState) (root : Root) (p n : String) :
    ((ReadDWordValue st root p n).2).handles = st.handles := by
  unfold ReadDWordValue
  cases ho : (openKey st root p QUERY_VALUE).1 with
  | error e => simp [ho, openKey_snd_handles_err ho]
  | ok k =>
    cases hg : getDWordValue ((openKey st root p QUERY_VALUE).2).reg k n <;>
      simp [ho, hg, closeKey, openKey_snd_handles_ok ho]

theorem ReadDWordValue_opens (st : RegState) (root : Root) (p n : String) :
    ((ReadDWordValue st root p n).2).opens = st.opens ++ [QUERY_VALUE] := by
  unfold ReadDWordValue
  cases ho : (openKey st root p QUERY_VALUE).1 with
  | error e => simp [ho, openKey_snd_opens]
  | ok k =>
    cases hg : getDWordValue ((openKey st root p QUERY_VALUE).2).reg k n <;>
      simp [ho, hg, closeKey, openKey_snd_opens]

theorem ReadDWordValue_err (st : RegState) (root : Root) (p n : String) (e : RegError)
    (h : (ReadDWordValue st root p n).1 = .error e) :
    (openKey st root p QUERY_VALUE).1 = .error e ∨
      getDWordValue st.reg ⟨root, p⟩ n = .error e := by
  unfold ReadDWordValue at h
  cases ho : (openKey st root p QUERY_VALUE).1 with
  | error e2 => simp [ho] at h; left; rw [h]
  | ok k =>
    right
    have hk := (openKey_fst_ok ho).1
    simp [ho, openKey_snd_reg, hk] at h
    cases hg : getDWordValue st.reg ⟨root, p⟩ n with
    | error e2 => simp [hg] at h; rw [h]
    | ok v => simp [hg] at h

theorem ReadDWordValue_missing (st : RegState) (root : Root) (p n : String)
    (h : lookupVal st.reg ⟨root, p⟩ n = none) :
    isErr (ReadDWordValue st root p n).1 = true := by
  unfold ReadDWordValue
  cases ho : (openKey st root p QUERY_VALUE).1 with
  | error e => simp [ho, isErr]
  | ok k =>
    have hk := (openKey_fst_ok ho).1
    simp [ho, openKey_snd_reg, hk, getDWordValue, h, isErr]

theorem ReadDWordValue_val (st : RegState) (root : Root) (p n : String)
    (h1 : keyPresent st.reg ⟨root, p⟩ = true) (h2 : deniedIn st.reg ⟨root, p⟩ = false) :
    (ReadDWordValue st root p n).1 = getDWordValue st.reg ⟨root, p⟩ n := by
  have ho := openKey_ok_of_open st root p QUERY_VALUE h1 h2
  unfold ReadDWordValue
  simp only [ho, openKey_snd_reg]
  cases hg : getDWordValue st.reg ⟨root, p⟩ n <;> simp [hg]

theorem WriteDWordValue_handles (st : RegState) (root : Root) (p n : String) (d : Nat) :
    ((WriteDWordValue st root p n d).2).handles = st.handles := by
  unfold WriteDWordValue
  cases ho : (openKey st root p WRITE).1 with
  | error e => simp [ho, openKey_snd_handles_err ho]
  | ok k => simp [ho, closeKey, openKey_snd_handles_ok ho]

theorem WriteDWordValue_opens (st : RegState) (root : Root) (p n : String) (d : Nat) :
    ((WriteDWordValue st root p n d).2).opens = st.opens ++ [WRITE] := by
  unfold WriteDWordValue
  cases ho : (openKey st root p WRITE).1 with
  | error e => simp [ho, openKey_snd_opens]
  | ok k => simp [ho, closeKey, openKey_snd_opens]

theorem WriteDWordValue_err (st : RegState) (root : Root) (p n : String) (d : Nat)
    (e : RegError) (h : (WriteDWordValue st root p n d).1 = .error e) :
    (openKey st root p WRITE).1 = .error e := by
  unfold WriteDWordValue at h
  cases ho : (openKey st root p WRITE).1 with
  | error e2 => simp [ho] at h; rw [h]
  | ok k => simp [ho] at h

theorem WriteDWordValue_ok (st : RegState) (root : Root) (p n : String) (d : Nat)
    (h : (WriteDWordValue st root p n d).1 = .ok ()) :
    keyPresent st.reg ⟨root, p⟩ = true ∧ deniedIn st.reg ⟨root, p⟩ = false ∧
      ((WriteDWordValue st root p n d).2).reg = setDWordValue st.reg ⟨root, p⟩ n d := by
  unfold WriteDWordValue at h ⊢
  cases ho : (openKey st root p WRITE).1 with
  | error e => simp [ho] at h
  | ok k =>
    have hk := openKey_fst_ok ho
    refine ⟨hk.2.1, hk.2.2, ?_⟩
    simp [ho, closeKey, openKey_snd_reg, hk.1]

theorem ReadBinaryValue_handles (st : RegState) (root : Root) (p n : String) :
    ((ReadBinaryValue st root p n).2).handles = st.handles := by
  unfold ReadBinaryValue
  cases ho : (openKey st root p QUERY_VALUE).1 with
  | error e => simp [ho, openKey_snd_handles_err ho]
  | ok k =>
    cases hg : getBinaryValue ((openKey st root p QUERY_VALUE).2).reg k n <;>
      simp [ho, hg, closeKey, openKey_snd_handles_ok ho]

theorem ReadBinaryValue_opens (st : RegState) (root : Root) (p n : String) :
    ((ReadBinaryValue st root p n).2).opens = st.opens ++ [QUERY_VALUE] := by
  unfold ReadBinaryValue
  cases ho : (openKey st root p QUERY_VALUE).1 with
  | error e => simp [ho, openKey_snd_opens]
  | ok k =>
    cases hg : getBinaryValue ((openKey st root p QUERY_VALUE).2).reg k n <;>
      simp [ho, hg, closeKey, openKey_snd_opens]

theorem ReadBinaryValue_err (st : RegState) (root : Root) (p n : String) (e : RegError)
    (h : (ReadBinaryValue st root p n).1 = .error e) :
    (openKey st root p QUERY_VALUE).1 = .error e ∨
      getBinaryValue st.reg ⟨root, p⟩ n = .error e := by
  unfold ReadBinaryValue at h
  cases ho : (openKey st root p QUERY_VALUE).1 with
  | error e2 => simp [ho] at h; left; rw [h]
  | ok k =>
    right
    have hk := (openKey_fst_ok ho).1
    simp [ho, openKey_snd_reg, hk] at h
    cases hg : getBinaryValue st.reg ⟨root, p⟩ n with
    | error e2 => simp [hg] at h; rw [h]
    | ok v => simp [hg] at h

theorem ReadBinaryValue_missing (st : RegState) (root : Root) (p n : String)
    (h : lookupVal st.reg ⟨root, p⟩ n = none) :
    isErr (ReadBinaryValue st root p n).1 = true := by
  unfold ReadBinaryValue
  cases ho : (openKey st root p QUERY_VALUE).1 with
  | error e => simp [ho, isErr]
  | ok k =>
    have hk := (openKey_fst_ok ho).1
    simp [ho, openKey_snd_reg, hk, getBinaryValue, h, isErr]

theorem ReadBinaryValue_val (st : RegState) (root : Root) (p n : String)
    (h1 : keyPresent st.reg ⟨root, p⟩ = true) (h2 : deniedIn st.reg ⟨root, p⟩ = false) :
    (ReadBinaryValue st root p n).1 = getBinaryValue st.reg ⟨root, p⟩ n := by
  have ho := openKey_ok_of_open st root p QUERY_VALUE h1 h2
  unfold ReadBinaryValue
  simp only [ho, openKey_snd_reg]
  cases hg : getBinaryValue st.reg ⟨root, p⟩ n <;> simp [hg]

theorem ReadMultiStringValue_handles (st : RegState) (root : Root) (p n : String) :
    ((ReadMultiStringValue st root p n).2).handles = st.handles := by
  unfold ReadMultiStringValue
  cases ho : (openKey st root p QUERY_VALUE).1 with
  | error e => simp [ho, openKey_snd_handles_err ho]
  | ok k =>
    cases hg : getStringsValue ((openKey st root p QUERY_VALUE).2).reg k n <;>
      simp [ho, hg, closeKey, openKey_snd_handles_ok ho]

theorem ReadMultiStringValue_opens (st : RegState) (root : Root) (p n : String) :
    ((ReadMultiStringValue st root p n).2).opens = st.opens ++ [QUERY_VALUE] := by
  unfold ReadMultiStringValue
  cases ho : (openKey st root p QUERY_VALUE).1 with
  | error e => simp [ho, openKey_snd_opens]
  | ok k =>
    cases hg : getStringsValue ((openKey st root p QUERY_VALUE).2).reg k n <;>
      simp [ho, hg, closeKey, openKey_snd_opens]

theorem ReadMultiStringValue_err (st : RegState) (root : Root) (p n : String) (e : RegError)
    (h : (ReadMultiStringValue st root p n).1 = .error e) :
    (openKey st root p QUERY_VALUE).1 = .error e ∨
      getStringsValue st.reg ⟨root, p⟩ n = .error e := by
  unfold ReadMultiStringValue at h
  cases ho : (openKey st root p QUERY_VALUE).1 with
  | error e2 => simp [ho] at h; left; rw [h]
  | ok k =>
    right
    have hk := (openKey_fst_ok ho).1
    simp [ho, openKey_snd_reg, hk] at h
    cases hg : getStringsValue st.reg ⟨root, p⟩ n with
    | error e2 => simp [hg] at h; rw [h]
    | ok v => simp [hg] at h

theorem ReadMultiStringValue_missing (st : RegState) (root : Root) (p n : String)
    (h : lookupVal st.reg ⟨root, p⟩ n = none) :
    isErr (ReadMultiStringValue st root p n).1 = true := by
  unfold ReadMultiStringValue
  cases ho : (openKey st root p QUERY_VALUE).1 with
  | error e => simp [ho, isErr]
  | ok k =>
    have hk := (openKey_fst_ok ho).1
    simp [ho, openKey_snd_reg, hk, getStringsValue, h, isErr]

theorem ReadMultiStringValue_val (st : RegState) (root : Root) (p n : String)
    (h1 : keyPresent st.reg ⟨root, p⟩ = true) (h2 : deniedIn st.reg ⟨root, p⟩ = false) :
    (ReadMultiStringValue st root p n).1 = getStringsValue st.reg ⟨root, p⟩ n := by
  have ho := openKey_ok_of_open st root p QUERY_VALUE h1 h2
  unfold ReadMultiStringValue
  simp only [ho, openKey_snd_reg]
  cases hg : getStringsValue st.reg ⟨root, p⟩ n <;> simp [hg]

theorem ReadQWordValue_handles (st : RegState) (root : Root) (p n : String) :
    ((ReadQWordValue st root p n).2).handles = st.handles := by
  unfold ReadQWordValue
  cases ho : (openKey st root p QUERY_VALUE).1 with
  | error e => simp [ho, openKey_snd_handles_err ho]
  | ok k =>
    cases hg : getQWordValue ((openKey st root p QUERY_VALUE).2).reg k n <;>
      simp [ho, hg, closeKey, openKey_snd_handles_ok ho]

theorem ReadQWordValue_opens (st : RegState) (root : Root) (p n : String) :
    ((ReadQWordValue st root p n).2).opens = st.opens ++ [QUERY_VALUE] := by
  unfold ReadQWordValue
  cases ho : (openKey st root p QUERY_VALUE).1 with
  | error e => simp [ho, openKey_snd_opens]
  | ok k =>
    cases hg : getQWordValue ((openKey st root p QUERY_VALUE).2).reg k n <;>
      simp [ho, hg, closeKey, openKey_snd_opens]

theorem ReadQWordValue_err (st : RegState) (root : Root) (p n : String) (e : RegError)
    (h : (ReadQWordValue st root p n).1 = .error e) :
    (openKey st root p QUERY_VALUE).1 = .error e ∨
      getQWordValue st.reg ⟨root, p⟩ n = .error e := by
  unfold ReadQWordValue at h
  cases ho : (openKey st root p QUERY_VALUE).1 with
  | error e2 => simp [ho] at h; left; rw [h]
  | ok k =>
    right
    have hk := (openKey_fst_ok ho).1
    simp [ho, openKey_snd_reg, hk] at h
    cases hg : getQWordValue st.reg ⟨root, p⟩ n with
    | error e2 => simp [hg] at h; rw [h]
    | ok v => simp [hg] at h

theorem ReadQWordValue_missing (st : RegState) (root : Root) (p n : String)
    (h : lookupVal st.reg ⟨root, p⟩ n = none) :
    isErr (ReadQWordValue st root p n).1 = true := by
  unfold ReadQWordValue
  cases ho : (openKey st root p QUERY_VALUE).1 with
  | error e => simp [ho, isErr]
  | ok k =>
    have hk := (openKey_fst_ok ho).1
    simp [ho, openKey_snd_reg, hk, getQWordValue, h, isErr]

theorem ReadQWordValue_val (st : RegState) (root : Root) (p n : String)
    (h1 : keyPresent st.reg ⟨root, p⟩ = true) (h2 : deniedIn st.reg ⟨root, p⟩ = false) :
    (ReadQWordValue st root p n).1 = getQWordValue st.reg ⟨root, p⟩ n := by
  have ho := openKey_ok_of_open st root p QUERY_VALUE h1 h2
  unfold ReadQWordValue
  simp only [ho, openKey_snd_reg]
  cases hg : getQWordValue st.reg ⟨root, p⟩ n <;> simp [hg]

theorem ReadExpandStringValue_handles (st : RegState) (root : Root) (p n : String) :
    ((ReadExpandStringValue st root p n).2).handles = st.handles := by
  unfold ReadExpandStringValue
  cases ho : (openKey st root p QUERY_VALUE).1 with
  | error e => simp [ho, openKey_snd_handles_err ho]
  | ok k =>
    cases hg : getExpandStringValue ((openKey st root p QUERY_VALUE).2).reg k n <;>
      simp [ho, hg, closeKey, openKey_snd_handles_ok ho]

theorem ReadExpandStringValue_opens (st : RegState) (root : Root) (p n : String) :
    ((ReadExpandStringValue st root p n).2).opens = st.opens ++ [QUERY_VALUE] := by
  unfold ReadExpandStringValue
  cases ho : (openKey st root p QUERY_VALUE).1 with
  | error e => simp [ho, openKey_snd_opens]
  | ok k =>
    cases hg : getExpandStringValue ((openKey st root p QUERY_VALUE).2).reg k n <;>
      simp [ho, hg, closeKey, openKey_snd_opens]

theorem ReadExpandStringValue_err (st : RegState) (root : Root) (p n : String) (e : RegError)
    (h : (ReadExpandStringValue st root p n).1 = .error e) :
    (openKey st root p QUERY_VALUE).1 = .error e ∨
      getExpandStringValue st.reg ⟨root, p⟩ n = .error e := by
  unfold ReadExpandStringValue at h
  cases ho : (openKey st root p QUERY_VALUE).1 with
  | error e2 => simp [ho] at h; left; rw [h]
  | ok k =>
    right
    have hk := (openKey_fst_ok ho).1
    simp [ho, openKey_snd_reg, hk] at h
    cases hg : getExpandStringValue st.reg ⟨root, p⟩ n with
    | error e2 => simp [hg] at h; rw [h]
    | ok v => simp [hg] at h

theorem ReadExpandStringValue_missing (st : RegState) (root : Root) (p n : String)
    (h : lookupVal st.reg ⟨root, p⟩ n = none) :
    isErr (ReadExpandStringValue st root p n).1 = true := by
  unfold ReadExpandStringValue
  cases ho : (openKey st root p QUERY_VALUE).1 with
  | error e => simp [ho, isErr]
  | ok k =>
    have hk := (openKey_fst_ok ho).1
    simp [ho, openKey_snd_reg, hk, getExpandStringValue, h, isErr]

theorem ReadExpandStringValue_val (st : RegState) (root : Root) (p n : String)
    (h1 : keyPresent st.reg ⟨root, p⟩ = true) (h2 : deniedIn st.reg ⟨root, p⟩ = false) :
    (ReadExpandStringValue st root p n).1 = getExpandStringValue st.reg ⟨root, p⟩ n := by
  have ho := openKey_ok_of_open st root p QUERY_VALUE h1 h2
  unfold ReadExpandStringValue
  simp only [ho, openKey_snd_reg]
  cases hg : getExpandStringValue st.reg ⟨root, p⟩ n <;> simp [hg]

theorem ReadInt32Value_handles (st : RegState) (root : Root) (p n : String) :
    ((ReadInt32Value st root p n).2).handles = st.handles := by
  unfold ReadInt32Value
  cases ho : (openKey st root p QUERY_VALUE).1 with
  | error e => simp [ho, openKey_snd_handles_err ho]
  | ok k =>
    cases hg : getIntValue ((openKey st root p QUERY_VALUE).2).reg k n <;>
      simp [ho, hg, closeKey, openKey_snd_handles_ok ho]

theorem ReadInt32Value_opens (st : RegState) (root : Root) (p n : String) :
    ((ReadInt32Value st root p n).2).opens = st.opens ++ [QUERY_VALUE] := by
  unfold ReadInt32Value
  cases ho : (openKey st root p QUERY_VALUE).1 with
  | error e => simp [ho, openKey_snd_opens]
  | ok k =>
    cases hg : getIntValue ((openKey st root p QUERY_VALUE).2).reg k n <;>
      simp [ho, hg, closeKey, openKey_snd_opens]

theorem ReadInt32Value_err (st : RegState) (root : Root) (p n : String) (e : RegError)
    (h : (ReadInt32Value st root p n).1 = .error e) :
    (openKey st root p QUERY_VALUE).1 = .error e ∨
      getIntValue st.reg ⟨root, p⟩ n = .error e := by
  unfold ReadInt32Value at h
  cases ho : (openKey st root p QUERY_VALUE).1 with
  | error e2 => simp [ho] at h; left; rw [h]
  | ok k =>
    right
    have hk := (openKey_fst_ok ho).1
    simp [ho, openKey_snd_reg, hk] at h
    cases hg : getIntValue st.reg ⟨root, p⟩ n with
    | error e2 => simp [hg] at h; rw [h]
    | ok v => simp [hg] at h

theorem ReadInt32Value_missing (st : RegState) (root : Root) (p n : String)
    (h : lookupVal st.reg ⟨root, p⟩ n = none) :
    isErr (ReadInt32Value st root p n).1 = true := by
  unfold ReadInt32Value
  cases ho : (openKey st root p QUERY_VALUE).1 with
  | error e => simp [ho, isErr]
  | ok k =>
    have hk := (openKey_fst_ok ho).1
    simp [ho, openKey_snd_reg, hk, getIntValue, h, isErr]

theorem ReadInt32Value_val (st : RegState) (root : Root) (p n : String)
    (h1 : keyPresent st.reg ⟨root, p⟩ = true) (h2 : deniedIn st.reg ⟨root, p⟩ = false) :
    (ReadInt32Value st root p n).1 = getIntValue st.reg ⟨root, p⟩ n := by
  have ho := openKey_ok_of_open st root p QUERY_VALUE h1 h2
  unfold ReadInt32Value
  simp only [ho, openKey_snd_reg]
  cases hg : getIntValue st.reg ⟨root, p⟩ n <;> simp [hg]

theorem ReadInt64Value_handles (st : RegState) (root : Root) (p n : String) :
    ((ReadInt64Value st root p n).2).handles = st.handles := by
  unfold ReadInt64Value
  cases ho : (openKey st root p QUERY_VALUE).1 with
  | error e => simp [ho, openKey_snd_handles_err ho]
  | ok k =>
    cases hg : getIntValue ((openKey st root p QUERY_VALUE).2).reg k n <;>
      simp [ho, hg, closeKey, openKey_snd_handles_ok ho]

theorem ReadInt64Value_opens (st : RegState) (root : Root) (p n : String) :
    ((ReadInt64Value st root p n).2).opens = st.opens ++ [QUERY_VALUE] := by
  unfold ReadInt64Value
  cases ho : (openKey st root p QUERY_VALUE).1 with
  | error e => simp [ho, openKey_snd_opens]
  | ok k =>
    cases hg : getIntValue ((openKey st root p QUERY_VALUE).2).reg k n <;>
      simp [ho, hg, closeKey, openKey_snd_opens]

theorem ReadInt64Value_err (st : RegState) (root : Root) (p n : String) (e : RegError)
    (h : (ReadInt64Value st root p n).1 = .error e) :
    (openKey st root p QUERY_VALUE).1 = .error e ∨
      getIntValue st.reg ⟨root, p⟩ n = .error e := by
  unfold ReadInt64Value at h
  cases ho : (openKey st root p QUERY_VALUE).1 with
  | error e2 => simp [ho] at h; left; rw [h]
  | ok k =>
    right
    have hk := (openKey_fst_ok ho).1
    simp [ho, openKey_snd_reg, hk] at h
    cases hg : getIntValue st.reg ⟨root, p⟩ n with
    | error e2 => simp [hg] at h; rw [h]
    | ok v => simp [hg] at h

theorem ReadInt64Value_missing (st : RegState) (root : Root) (p n : String)
    (h : lookupVal st.reg ⟨root, p⟩ n = none) :
    isErr (ReadInt64Value st root p n).1 = true := by
  unfold ReadInt64Value
  cases ho : (openKey st root p QUERY_VALUE).1 with
  | error e => simp [ho, isErr]
  | ok k =>
    have hk := (openKey_fst_ok ho).1
    simp [ho, openKey_snd_reg, hk, getIntValue, h, isErr]

theorem ReadInt64Value_val (st : RegState) (root : Root) (p n : String)
    (h1 : keyPresent st.reg ⟨root, p⟩ = true) (h2 : deniedIn st.reg ⟨root, p⟩ = false) :
    (ReadInt64Value st root p n).1 = getIntValue st.reg ⟨root, p⟩ n := by
  have ho := openKey_ok_of_open st root p QUERY_VALUE h1 h2
  unfold ReadInt64Value
  simp only [ho, openKey_snd_reg]
  cases hg : getIntValue st.reg ⟨root, p⟩ n <;> simp [hg]

theorem WriteBinaryValue_handles (st : RegState) (root : Root) (p n : String) (d : List Nat) :
    ((WriteBinaryValue st root p n d).2).handles = st.handles := by
  unfold WriteBinaryValue
  cases ho : (openKey st root p WRITE).1 with
  | error e => simp [ho, openKey_snd_handles_err ho]
  | ok k => simp [ho, closeKey, openKey_snd_handles_ok ho]

theorem WriteBinaryValue_opens (st : RegState) (root : Root) (p n : String) (d : List Nat) :
    ((WriteBinaryValue st root p n d).2).opens = st.opens ++ [WRITE] := by
  unfold WriteBinaryValue
  cases ho : (openKey st root p WRITE).1 with
  | error e => simp [ho, openKey_snd_opens]
  | ok k => simp [ho, closeKey, openKey_snd_opens]

theorem WriteBinaryValue_err (st : RegState) (root : Root) (p n : String) (d : List Nat)
    (e : RegError) (h : (WriteBinaryValue st root p n d).1 = .error e) :
    (openKey st root p WRITE).1 = .error e := by
  unfold WriteBinaryValue at h
  cases ho : (openKey st root p WRITE).1 with
  | error e2 => simp [ho] at h; rw [h]
  | ok k => simp [ho] at h

theorem WriteBinaryValue_ok (st : RegState) (root : Root) (p n : String) (d : List Nat)
    (h : (WriteBinaryValue st root p n d).1 = .ok ()) :
    keyPresent st.reg ⟨root, p⟩ = true ∧ deniedIn st.reg ⟨root, p⟩ = false ∧
      ((WriteBinaryValue st root p n d).2).reg = setBinaryValue st.reg ⟨root, p⟩ n d := by
  unfold WriteBinaryValue at h ⊢
  cases ho : (openKey st root p WRITE).1 with
  | error e => simp [ho] at h
  | ok k =>
    have hk := openKey_fst_ok ho
    refine ⟨hk.2.1, hk.2.2, ?_⟩
    simp [ho, closeKey, openKey_snd_reg, hk.1]

theorem WriteMultiStringValue_handles (st : RegState) (root : Root) (p n : String) (d : List String) :
    ((WriteMultiStringValue st root p n d).2).handles = st.handles := by
  unfold WriteMultiStringValue
  cases ho : (openKey st root p WRITE).1 with
  | error e => simp [ho, openKey_snd_handles_err ho]
  | ok k => simp [ho, closeKey, openKey_snd_handles_ok ho]

theorem WriteMultiStringValue_opens (st : RegState) (root : Root) (p n : String) (d : List String) :
    ((WriteMultiStringValue st root p n d).2).opens = st.opens ++ [WRITE] := by
  unfold WriteMultiStringValue
  cases ho : (openKey st root p WRITE).1 with
  | error e => simp [ho, openKey_snd_opens]
  | ok k => simp [ho, closeKey, openKey_snd_opens]

theorem WriteMultiStringValue_err (st : RegState) (root : Root) (p n : String) (d : List String)
    (e : RegError) (h : (WriteMultiStringValue st root p n d).1 = .error e) :
    (openKey st root p WRITE).1 = .error e := by
  unfold WriteMultiStringValue at h
  cases ho : (openKey st root p WRITE).1 with
  | error e2 => simp [ho] at h; rw [h]
  | ok k => simp [ho] at h

theorem WriteMultiStringValue_ok (st : RegState) (root : Root) (p n : String) (d : List String)
    (h : (WriteMultiStringValue st root p n d).1 = .ok ()) :
    keyPresent st.reg ⟨root, p⟩ = true ∧ deniedIn st.reg ⟨root, p⟩ = false ∧
      ((WriteMultiStringValue st root p n d).2).reg = setStringsValue st.reg ⟨root, p⟩ n d := by
  unfold WriteMultiStringValue at h ⊢
  cases ho : (openKey st root p WRITE).1 with
  | error e => simp [ho] at h
  | ok k =>
    have hk := openKey_fst_ok ho
    refine ⟨hk.2.1, hk.2.2, ?_⟩
    simp [ho, closeKey, openKey_snd_reg, hk.1]

theorem WriteQWordValue_handles (st : RegState) (root : Root) (p n : String) (d : Nat) :
    ((WriteQWordValue st root p n d).2).handles = st.handles := by
  unfold WriteQWordValue
  cases ho : (openKey st root p WRITE).1 with
  | error e => simp [ho, openKey_snd_handles_err ho]
  | ok k => simp [ho, closeKey, openKey_snd_handles_ok ho]

theorem WriteQWordValue_opens (st : RegState) (root : Root) (p n : String) (d : Nat) :
    ((WriteQWordValue st root p n d).2).opens = st.opens ++ [WRITE] := by
  unfold WriteQWordValue
  cases ho : (openKey st root p WRITE).1 with
  | error e => simp [ho, openKey_snd_opens]
  | ok k => simp [ho, closeKey, openKey_snd_opens]

theorem WriteQWordValue_err (st : RegState) (root : Root) (p n : String) (d : Nat)
    (e : RegError) (h : (WriteQWordValue st root p n d).1 = .error e) :
    (openKey st root p WRITE).1 = .error e := by
  unfold WriteQWordValue at h
  cases ho : (openKey st root p WRITE).1 with
  | error e2 => simp [ho] at h; rw [h]
  | ok k => simp [ho] at h

theorem WriteQWordValue_ok (st : RegState) (root : Root) (p n : String) (d : Nat)
    (h : (WriteQWordValue st root p n d).1 = .ok ()) :
    keyPresent st.reg ⟨root, p⟩ = true ∧ deniedIn st.reg ⟨root, p⟩ = false ∧
      ((WriteQWordValue st root p n d).2).reg = setQWordValue st.reg ⟨root, p⟩ n d := by
  unfold WriteQWordValue at h ⊢
  cases ho : (openKey st root p WRITE).1 with
  | error e => simp [ho] at h
  | ok k =>
    have hk := openKey_fst_ok ho
    refine ⟨hk.2.1, hk.2.2, ?_⟩
    simp [ho, closeKey, openKey_snd_reg, hk.1]

theorem WriteExpandStringValue_handles (st : RegState) (root : Root) (p n : String) (d : String) :
    ((WriteExpandStringValue st root p n d).2).handles = st.handles := by
  unfold WriteExpandStringValue
  cases ho : (openKey st root p WRITE).1 with
  | error e => simp [ho, openKey_snd_handles_err ho]
  | ok k => simp [ho, closeKey, openKey_snd_handles_ok ho]

theorem WriteExpandStringValue_opens (st : RegState) (root : Root) (p n : String) (d : String) :
    ((WriteExpandStringValue st root p n d).2).opens = st.opens ++ [WRITE] := by
  unfold WriteExpandStringValue
  cases ho : (openKey st root p WRITE).1 with
  | error e => simp [ho, openKey_snd_opens]
  | ok k => simp [ho, closeKey, openKey_snd_opens]

theorem WriteExpandStringValue_err (st : RegState) (root : Root) (p n : String) (d : String)
    (e : RegError) (h : (WriteExpandStringValue st root p n d).1 = .error e) :
    (openKey st root p WRITE).1 = .error e := by
  unfold WriteExpandStringValue at h
  cases ho : (openKey st root p WRITE).1 with
  | error e2 => simp [ho] at h; rw [h]
  | ok k => simp [ho] at h

theorem WriteExpandStringValue_ok (st : RegState) (root : Root) (p n : String) (d : String)
    (h : (WriteExpandStringValue st root p n d).1 = .ok ()) :
    keyPresent st.reg ⟨root, p⟩ = true ∧ deniedIn st.reg ⟨root, p⟩ = false ∧
      ((WriteExpandStringValue st root p n d).2).reg = setExpandStringValue st.reg ⟨root, p⟩ n d := by
  unfold WriteExpandStringValue at h ⊢
  cases ho : (openKey st root p WRITE).1 with
  | error e => simp [ho] at h
  | ok k =>
    have hk := openKey_fst_ok ho
    refine ⟨hk.2.1, hk.2.2, ?_⟩
    simp [ho, closeKey, openKey_snd_reg, hk.1]

theorem WriteInt32Value_handles (st : RegState) (root : Root) (p n : String) (d : Int) :
    ((WriteInt32Value st root p n d).2).handles = st.handles := by
  unfold WriteInt32Value
  cases ho : (openKey st root p WRITE).1 with
  | error e => simp [ho, openKey_snd_handles_err ho]
  | ok k => simp [ho, closeKey, openKey_snd_handles_ok ho]

theorem WriteInt32Value_opens (st : RegState) (root : Root) (p n : String) (d : Int) :
    ((WriteInt32Value st root p n d).2).opens = st.opens ++ [WRITE] := by
  unfold WriteInt32Value
  cases ho : (openKey st root p WRITE).1 with
  | error e => simp [ho, openKey_snd_opens]
  | ok k => simp [ho, closeKey, openKey_snd_opens]

theorem WriteInt32Value_err (st : RegState) (root : Root) (p n : String) (d : Int)
    (e : RegError) (h : (WriteInt32Value st root p n d).1 = .error e) :
    (openKey st root p WRITE).1 = .error e := by
  unfold WriteInt32Value at h
  cases ho : (openKey st root p WRITE).1 with
  | error e2 => simp [ho] at h; rw [h]
  | ok k => simp [ho] at h

theorem WriteInt32Value_ok (st : RegState) (root : Root) (p n : String) (d : Int)
    (h : (WriteInt32Value st root p n d).1 = .ok ()) :
    keyPresent st.reg ⟨root, p⟩ = true ∧ deniedIn st.reg ⟨root, p⟩ = false ∧
      ((WriteInt32Value st root p n d).2).reg = setIntValue st.reg ⟨root, p⟩ n d := by
  unfold WriteInt32Value at h ⊢
  cases ho : (openKey st root p WRITE).1 with
  | error e => simp [ho] at h
  | ok k =>
    have hk := openKey_fst_ok ho
    refine ⟨hk.2.1, hk.2.2, ?_⟩
    simp [ho, closeKey, openKey_snd_reg, hk.1]

theorem WriteInt64Value_handles (st : RegState) (root : Root) (p n : String) (d : Int) :
    ((WriteInt64Value st root p n d).2).handles = st.handles := by
  unfold WriteInt64Value
  cases ho : (openKey st root p WRITE).1 with
  | error e => simp [ho, openKey_snd_handles_err ho]
  | ok k => simp [ho, closeKey, openKey_snd_handles_ok ho]

theorem WriteInt64Value_opens (st : RegState) (root : Root) (p n : String) (d : Int) :
    ((WriteInt64Value st root p n d).2).opens = st.opens ++ [WRITE] := by
  unfold WriteInt64Value
  cases ho : (openKey st root p WRITE).1 with
  | error e => simp [ho, openKey_snd_opens]
  | ok k => simp [ho, closeKey, openKey_snd_opens]

theorem WriteInt64Value_err (st : RegState) (root : Root) (p n : String) (d : Int)
    (e : RegError) (h : (WriteInt64Value st root p n d).1 = .error e) :
    (openKey st root p WRITE).1 = .error e := by
  unfold WriteInt64Value at h
  cases ho : (openKey st root p WRITE).1 with
  | error e2 => simp [ho] at h; rw [h]
  | ok k => simp [ho] at h

theorem WriteInt64Value_ok (st : RegState) (root : Root) (p n : String) (d : Int)
    (h : (WriteInt64Value st root p n d).1 = .ok ()) :
    keyPresent st.reg ⟨root, p⟩ = true ∧ deniedIn st.reg ⟨root, p⟩ = false ∧
      ((WriteInt64Value st root p n d).2).reg = setIntValue st.reg ⟨root, p⟩ n (toInt32 d) := by
  unfold WriteInt64Value at h ⊢
  cases ho : (openKey st root p WRITE).1 with
  | error e => simp [ho] at h
  | ok k =>
    have hk := openKey_fst_ok ho
    refine ⟨hk.2.1, hk.2.2, ?_⟩
    simp [ho, closeKey, openKey_snd_reg, hk.1]


/-! Lemmas for the delete, existence, enumeration, creation, and defaulting
functions. -/

theorem DeleteValue_handles (st : RegState) (root : Root) (p n : String) :
    ((DeleteValue st root p n).2).handles = st.handles := by
  unfold DeleteValue
  cases ho : (openKey st root p WRITE).1 with
  | error e => simp [ho, openKey_snd_handles_err ho]
  | ok k =>
    cases hd : osDeleteValue ((openKey st root p WRITE).2).reg k n <;>
      simp [ho, hd, closeKey, openKey_snd_handles_ok ho]

theorem DeleteValue_opens (st : RegState) (root : Root) (p n : String) :
    ((DeleteValue st root p n).2).opens = st.opens ++ [WRITE] := by
  unfold DeleteValue
  cases ho : (openKey st root p WRITE).1 with
  | error e => simp [ho, openKey_snd_opens]
  | ok k =>
    cases hd : osDeleteValue ((openKey st root p WRITE).2).reg k n <;>
      simp [ho, hd, closeKey, openKey_snd_opens]

theorem DeleteValue_err (st : RegState) (root : Root) (p n : String) (e : RegError)
    (h : (DeleteValue st root p n).1 = .error e) :
    (openKey st root p WRITE).1 = .error e ∨
      osDeleteValue st.reg ⟨root, p⟩ n = .error e := by
  unfold DeleteValue at h
  cases ho : (openKey st root p WRITE).1 with
  | error e2 => simp [ho] at h; left; rw [h]
  | ok k =>
    right
    have hk := (openKey_fst_ok ho).1
    simp [ho, openKey_snd_reg, hk] at h
    cases hd : osDeleteValue st.reg ⟨root, p⟩ n with
    | error e2 => simp [hd] at h; rw [h]
    | ok reg2 => simp [hd] at h

theorem DeleteValue_missing (st : RegState) (root : Root) (p n : String)
    (h : lookupVal st.reg ⟨root, p⟩ n = none) :
    isErr (DeleteValue st root p n).1 = true := by
  unfold DeleteValue
  cases ho : (openKey st root p WRITE).1 with
  | error e => simp [ho, isErr]
  | ok k =>
    have hk := (openKey_fst_ok ho).1
    simp [ho, openKey_snd_reg, hk, osDeleteValue, h, isErr]

theorem DeleteValue_ok (st : RegState) (root : Root) (p n : String)
    (h : (DeleteValue st root p n).1 = .ok ()) :
    keyPresent st.reg ⟨root, p⟩ = true ∧ deniedIn st.reg ⟨root, p⟩ = false ∧
      ((DeleteValue st root p n).2).reg = removeVal st.reg ⟨root, p⟩ n := by
  unfold DeleteValue at h ⊢
  cases ho : (openKey st root p WRITE).1 with
  | error e => simp [ho] at h
  | ok k =>
    have hk := openKey_fst_ok ho
    refine ⟨hk.2.1, hk.2.2, ?_⟩
    simp only [ho, openKey_snd_reg, hk.1] at h ⊢
    cases hd : osDeleteValue st.reg ⟨root, p⟩ n with
    | error e => simp [hd] at h
    | ok reg2 =>
      simp [hd, closeKey]
      unfold osDeleteValue at hd
      cases hl : lookupVal st.reg ⟨root, p⟩ n <;> simp [hl] at hd
      rw [hd]

theorem DeleteSubKey_handles (st : RegState) (root : Root) (p s : String) :
    ((DeleteSubKey st root p s).2).handles = st.handles := by
  unfold DeleteSubKey
  cases ho : (openKey st root p WRITE).1 with
  | error e => simp [ho, openKey_snd_handles_err ho]
  | ok k =>
    cases hd : osDeleteKey ((openKey st root p WRITE).2).reg ⟨k.root, joinPath k.path s⟩ <;>
      simp [ho, hd, closeKey, openKey_snd_handles_ok ho]

theorem DeleteSubKey_opens (st : RegState) (root : Root) (p s : String) :
    ((DeleteSubKey st root p s).2).opens = st.opens ++ [WRITE] := by
  unfold DeleteSubKey
  cases ho : (openKey st root p WRITE).1 with
  | error e => simp [ho, openKey_snd_opens]
  | ok k =>
    cases hd : osDeleteKey ((openKey st root p WRITE).2).reg ⟨k.root, joinPath k.path s⟩ <;>
      simp [ho, hd, closeKey, openKey_snd_opens]

theorem DeleteSubKey_err (st : RegState) (root : Root) (p s : String) (e : RegError)
    (h : (DeleteSubKey st root p s).1 = .error e) :
    (openKey st root p WRITE).1 = .error e ∨
      osDeleteKey st.reg ⟨root, joinPath p s⟩ = .error e := by
  unfold DeleteSubKey at h
  cases ho : (openKey st root p WRITE).1 with
  | error e2 => simp [ho] at h; left; rw [h]
  | ok k =>
    right
    have hk := (openKey_fst_ok ho).1
    simp [ho, openKey_snd_reg, hk] at h
    cases hd : osDeleteKey st.reg ⟨root, joinPath p s⟩ with
    | error e2 => simp [hd] at h; rw [h]
    | ok reg2 => simp [hd] at h

theorem KeyExists_handles (st : RegState) (root : Root) (p : String) :
    ((KeyExists st root p).2).handles = st.handles := by
  unfold KeyExists
  cases ho : (openKey st root p QUERY_VALUE).1 with
  | error e => simp [ho, openKey_snd_handles_err ho]
  | ok k => simp [ho, closeKey, openKey_snd_handles_ok ho]

theorem KeyExists_opens (st : RegState) (root : Root) (p : String) :
    ((KeyExists st root p).2).opens = st.opens ++ [QUERY_VALUE] := by
  unfold KeyExists
  cases ho : (openKey st root p QUERY_VALUE).1 with
  | error e => simp [ho, openKey_snd_opens]
  | ok k => simp [ho, closeKey, openKey_snd_opens]

theorem KeyExists_val (st : RegState) (root : Root) (p : String) :
    (KeyExists st root p).1 =
      (keyPresent st.reg ⟨root, p⟩ && !deniedIn st.reg ⟨root, p⟩) := by
  unfold KeyExists openKey openResult
  by_cases h1 : keyPresent st.reg ⟨root, p⟩ <;> by_cases h2 : deniedIn st.reg ⟨root, p⟩ <;>
    simp [h1, h2]

theorem ValueExists_handles (st : RegState) (root : Root) (p n : String) :
    ((ValueExists st root p n).2).handles = st.handles := by
  unfold ValueExists
  cases ho : (openKey st root p QUERY_VALUE).1 with
  | error e => simp [ho, openKey_snd_handles_err ho]
  | ok k =>
    cases hg : getStringValue ((openKey st root p QUERY_VALUE).2).reg k n <;>
      simp [ho, hg, closeKey, openKey_snd_handles_ok ho]

theorem ValueExists_opens (st : RegState) (root : Root) (p n : String) :
    ((ValueExists st root p n).2).opens = st.opens ++ [QUERY_VALUE] := by
  unfold ValueExists
  cases ho : (openKey st root p QUERY_VALUE).1 with
  | error e => simp [ho, openKey_snd_opens]
  | ok k =>
    cases hg : getStringValue ((openKey st root p QUERY_VALUE).2).reg k n <;>
      simp [ho, hg, closeKey, openKey_snd_opens]

theorem ValueExists_val (st : RegState) (root : Root) (p n : String) :
    (ValueExists st root p n).1 = true ↔
      ((openKey st root p QUERY_VALUE).1 = .ok ⟨root, p⟩ ∧
        ∃ s, getStringValue st.reg ⟨root, p⟩ n = .ok s) := by
  unfold ValueExists
  cases ho : (openKey st root p QUERY_VALUE).1 with
  | error e => simp [ho]
  | ok k =>
    have hk := (openKey_fst_ok ho).1
    subst hk
    cases hg : getStringValue st.reg ⟨root, p⟩ n <;>
      simp [ho, hg, openKey_snd_reg]

theorem EnumerateSubKeys_handles (st : RegState) (root : Root) (p : String) :
    ((EnumerateSubKeys st root p).2).handles = st.handles := by
  unfold EnumerateSubKeys
  cases ho : (openKey st root p ENUMERATE_SUB_KEYS).1 with
  | error e => simp [ho, openKey_snd_handles_err ho]
  | ok k => simp [ho, closeKey, openKey_snd_handles_ok ho]

theorem EnumerateSubKeys_opens (st : RegState) (root : Root) (p : String) :
    ((EnumerateSubKeys st root p).2).opens = st.opens ++ [ENUMERATE_SUB_KEYS] := by
  unfold EnumerateSubKeys
  cases ho : (openKey st root p ENUMERATE_SUB_KEYS).1 with
  | error e => simp [ho, openKey_snd_opens]
  | ok k => simp [ho, closeKey, openKey_snd_opens]

theorem EnumerateSubKeys_err (st : RegState) (root : Root) (p : String) (e : RegError)
    (h : (EnumerateSubKeys st root p).1 = .error e) :
    (openKey st root p ENUMERATE_SUB_KEYS).1 = .error e := by
  unfold EnumerateSubKeys at h
  cases ho : (openKey st root p ENUMERATE_SUB_KEYS).1 with
  | error e2 => simp [ho] at h; rw [h]
  | ok k => simp [ho] at h

theorem EnumerateValues_handles (st : RegState) (root : Root) (p : String) :
    ((EnumerateValues st root p).2).handles = st.handles := by
  unfold EnumerateValues
  cases ho : (openKey st root p QUERY_VALUE).1 with
  | error e => simp [ho, openKey_snd_handles_err ho]
  | ok k => simp [ho, closeKey, openKey_snd_handles_ok ho]

theorem EnumerateValues_opens (st : RegState) (root : Root) (p : String) :
    ((EnumerateValues st root p).2).opens = st.opens ++ [QUERY_VALUE] := by
  unfold EnumerateValues
  cases ho : (openKey st root p QUERY_VALUE).1 with
  | error e => simp [ho, openKey_snd_opens]
  | ok k => simp [ho, closeKey, openKey_snd_opens]

theorem EnumerateValues_err (st : RegState) (root : Root) (p : String) (e : RegError)
    (h : (EnumerateValues st root p).1 = .error e) :
    (openKey st root p QUERY_VALUE).1 = .error e := by
  unfold EnumerateValues at h
  cases ho : (openKey st root p QUERY_VALUE).1 with
  | error e2 => simp [ho] at h; rw [h]
  | ok k => simp [ho] at h

theorem EnumerateValues_val (st : RegState) (root : Root) (p : String)
    (h1 : keyPresent st.reg ⟨root, p⟩ = true) (h2 : deniedIn st.reg ⟨root, p⟩ = false) :
    (EnumerateValues st root p).1 = .ok (readValueNames st.reg ⟨root, p⟩) := by
  have ho := openKey_ok_of_open st root p QUERY_VALUE h1 h2
  unfold EnumerateValues
  simp [ho, openKey_snd_reg]

theorem ReadStringValueWithDefault_handles (st : RegState) (root : Root) (p n d : String) :
    ((ReadStringValueWithDefault st root p n d).2).handles = st.handles := by
  unfold ReadStringValueWithDefault
  cases ho : (openKey st root p QUERY_VALUE).1 with
  | error e => simp [ho, openKey_snd_handles_err ho]
  | ok k =>
    cases hg : getStringValue ((openKey st root p QUERY_VALUE).2).reg k n <;>
      simp [ho, hg, closeKey, openKey_snd_handles_ok ho]

theorem ReadStringValueWithDefault_opens (st : RegState) (root : Root) (p n d : String) :
    ((ReadStringValueWithDefault st root p n d).2).opens = st.opens ++ [QUERY_VALUE] := by
  unfold ReadStringValueWithDefault
  cases ho : (openKey st root p QUERY_VALUE).1 with
  | error e => simp [ho, openKey_snd_opens]
  | ok k =>
    cases hg : getStringValue ((openKey st root p QUERY_VALUE).2).reg k n <;>
      simp [ho, hg, closeKey, openKey_snd_opens]

theorem ReadStringValueWithDefault_never_err (st : RegState) (root : Root) (p n d : String) :
    ∃ s, (ReadStringValueWithDefault st root p n d).1 = .ok s := by
  unfold ReadStringValueWithDefault
  cases ho : (openKey st root p QUERY_VALUE).1 with
  | error e => exact ⟨d, by simp [ho]⟩
  | ok k =>
    cases hg : getStringValue ((openKey st root p QUERY_VALUE).2).reg k n with
    | error e => exact ⟨d, by simp [ho, hg]⟩
    | ok s => exact ⟨s, by simp [ho, hg]⟩

theorem ReadStringValueWithDefault_openFail (st : RegState) (root : Root) (p n d : String)
    (e : RegError) (h : (openKey st root p QUERY_VALUE).1 = .error e) :
    (ReadStringValueWithDefault st root p n d).1 = .ok d := by
  unfold ReadStringValueWithDefault
  simp [h]

theorem ReadStringValueWithDefault_readFail (st : RegState) (root : Root) (p n d : String)
    (e : RegError) (h : getStringValue st.reg ⟨root, p⟩ n = .error e) :
    (ReadStringValueWithDefault st root p n d).1 = .ok d := by
  unfold ReadStringValueWithDefault
  cases ho : (openKey st root p QUERY_VALUE).1 with
  | error e2 => simp [ho]
  | ok k =>
    have hk := (openKey_fst_ok ho).1
    simp [ho, openKey_snd_reg, hk, h]

theorem ReadStringValueWithDefault_found (st : RegState) (root : Root) (p n d : String)
    (k : KeyId) (s : String) (hko : (openKey st root p QUERY_VALUE).1 = .ok k)
    (h : getStringValue st.reg ⟨root, p⟩ n = .ok s) :
    (ReadStringValueWithDefault st root p n d).1 = .ok s := by
  unfold ReadStringValueWithDefault
  have hk := (openKey_fst_ok hko).1
  simp [hko, openKey_snd_reg, hk, h]

theorem CreateKey_opens (st : RegState) (root : Root) (p : String) :
    ((CreateKey st root p).2).opens = st.opens ++ [ALL_ACCESS] := by
  unfold CreateKey createKeyOS
  by_cases h : deniedIn st.reg ⟨root, p⟩ <;> simp [h]

theorem CreateKey_ok (st : RegState) (root : Root) (p : String) (k : KeyId)
    (h : (CreateKey st root p).1 = .ok k) :
    k = ⟨root, p⟩ ∧ deniedIn st.reg ⟨root, p⟩ = false ∧
      ((CreateKey st root p).2).handles = st.handles + 1 ∧
      ((CreateKey st root p).2).reg = addKey st.reg ⟨root, p⟩ := by
  unfold CreateKey createKeyOS at h ⊢
  by_cases hd : deniedIn st.reg ⟨root, p⟩ <;> simp [hd] at h ⊢
  rw [h]

theorem CreateKey_err (st : RegState) (root : Root) (p : String) (e : RegError)
    (h : (CreateKey st root p).1 = .error e) :
    (createKeyOS st root p).1 = .error e := h

theorem DeleteKey_handles (st : RegState) (root : Root) (p : String) :
    ((DeleteKey st root p).2).handles = st.handles := by
  unfold DeleteKey
  cases hd : osDeleteKey st.reg ⟨root, p⟩ <;> simp [hd]

theorem DeleteKey_opens (st : RegState) (root : Root) (p : String) :
    ((DeleteKey st root p).2).opens = st.opens := by
  unfold DeleteKey
  cases hd : osDeleteKey st.reg ⟨root, p⟩ <;> simp [hd]

theorem DeleteKey_err (st : RegState) (root : Root) (p : String) (e : RegError)
    (h : (DeleteKey st root p).1 = .error e) :
    osDeleteKey st.reg ⟨root, p⟩ = .error e := by
  unfold DeleteKey at h
  cases hd : osDeleteKey st.reg ⟨root, p⟩ <;> simp [hd] at h
  rw [h]

theorem DeleteKey_ok (st : RegState) (root : Root) (p : String)
    (h : (DeleteKey st root p).1 = .ok ()) :
    ((DeleteKey st root p).2).reg = removeKey st.reg ⟨root, p⟩ := by
  unfold DeleteKey at h ⊢
  cases hd : osDeleteKey st.reg ⟨root, p⟩ with
  | error e => simp [hd] at h
  | ok reg2 =>
    simp [hd]
    unfold osDeleteKey at hd
    by_cases h1 : keyPresent st.reg ⟨root, p⟩ <;> by_cases h2 : deniedIn st.reg ⟨root, p⟩ <;>
      simp [h1, h2] at hd
    rw [hd]


/-! Registry-level facts used by the claims. -/

theorem removeVal_keys (reg : Registry) (k : KeyId) (n : String) :
    (removeVal reg k n).keys = reg.keys := rfl

theorem keyPresent_removeVal (reg : Registry) (k k2 : KeyId) (n : String) :
    keyPresent (removeVal reg k n) k2 = keyPresent reg k2 := rfl

theorem deniedIn_removeVal (reg : Registry) (k k2 : KeyId) (n : String) :
    deniedIn (removeVal reg k n) k2 = deniedIn reg k2 := rfl

theorem keyPresent_addKey_self (reg : Registry) (k : KeyId) :
    keyPresent (addKey reg k) k = true := by
  unfold addKey
  split
  next h => exact h
  next h => simp [keyPresent, List.any_append]

theorem deniedIn_addKey (reg : Registry) (k k2 : KeyId) :
    deniedIn (addKey reg k) k2 = deniedIn reg k2 := by
  unfold addKey
  split
  next => rfl
  next => rfl

theorem keyPresent_removeKey_self (reg : Registry) (k : KeyId) :
    keyPresent (removeKey reg k) k = false := by
  unfold keyPresent removeKey
  simp [List.any_eq_true, List.mem_filter]

theorem not_mem_readValueNames_removeVal (reg : Registry) (k : KeyId) (n : String) :
    n ∉ readValueNames (removeVal reg k n) k := by
  unfold readValueNames removeVal
  intro hmem
  simp only [List.mem_map] at hmem
  obtain ⟨e, he, hen⟩ := hmem
  simp only [List.mem_filter] at he
  obtain ⟨⟨hev, hp1⟩, hp2⟩ := he
  rw [decide_eq_true_eq] at hp2
  simp [hp2, hen] at hp1

/-! Round-trip getter/setter facts. -/

theorem getDWordValue_setDWordValue (reg : Registry) (k : KeyId) (n : String) (d : Nat) :
    getDWordValue (setDWordValue reg k n d) k n = .ok (d % 4294967296) := by
  have hm : d % 4294967296 % 4294967296 = d % 4294967296 := by omega
  unfold getDWordValue setDWordValue
  simp [lookupVal_setVal, hm]

theorem getQWordValue_setQWordValue (reg : Registry) (k : KeyId) (n : String) (d : Nat) :
    getQWordValue (setQWordValue reg k n d) k n = .ok (d % 18446744073709551616) := by
  have hm : d % 18446744073709551616 % 18446744073709551616 = d % 18446744073709551616 := by
    omega
  unfold getQWordValue setQWordValue
  simp [lookupVal_setVal, hm]

theorem getBinaryValue_setBinaryValue (reg : Registry) (k : KeyId) (n : String)
    (bs : List Nat) : getBinaryValue (setBinaryValue reg k n bs) k n = .ok bs := by
  unfold getBinaryValue setBinaryValue
  rw [lookupVal_setVal]

theorem getStringsValue_setStringsValue (reg : Registry) (k : KeyId) (n : String)
    (ss : List String) : getStringsValue (setStringsValue reg k n ss) k n = .ok ss := by
  unfold getStringsValue setStringsValue
  rw [lookupVal_setVal]

theorem getExpandStringValue_setExpandStringValue (reg : Registry) (k : KeyId) (n : String)
    (s : String) : getExpandStringValue (setExpandStringValue reg k n s) k n = .ok s := by
  unfold getExpandStringValue setExpandStringValue
  rw [lookupVal_setVal]

theorem getIntValue_setIntValue (reg : Registry) (k : KeyId) (n : String) (d : Int) :
    getIntValue (setIntValue reg k n d) k n =
      .ok (if (d % 4294967296).toNat < 2147483648 then ((d % 4294967296).toNat : Int)
          else ((d % 4294967296).toNat : Int) - 4294967296) := by
  have hm : (d % 4294967296).toNat % 4294967296 = (d % 4294967296).toNat := by omega
  unfold getIntValue setIntValue
  simp [lookupVal_setVal, hm]

theorem lookupVal_setIntValue (reg : Registry) (k : KeyId) (n : String) (d : Int) :
    lookupVal (setIntValue reg k n d) k n = some (.dword (d % 4294967296).toNat) := by
  unfold setIntValue
  rw [lookupVal_setVal]

/-! Two's-complement arithmetic facts for the `int32` narrowing. -/

theorem int32_bits_roundtrip (d : Int) (h1 : -2147483648 ≤ d) (h2 : d < 2147483648) :
    (if (d % 4294967296).toNat < 2147483648 then ((d % 4294967296).toNat : Int)
     else ((d % 4294967296).toNat : Int) - 4294967296) = d := by
  split <;> omega

theorem toInt32_range (d : Int) : -2147483648 ≤ toInt32 d ∧ toInt32 d < 2147483648 := by
  unfold toInt32
  omega

theorem toInt32_eq_self (d : Int) :
    toInt32 d = d ↔ (-2147483648 ≤ d ∧ d < 2147483648) := by
  unfold toInt32
  omega

theorem getIntValue_range (reg : Registry) (k : KeyId) (n : String) (v : Int)
    (h : getIntValue reg k n = .ok v) : -2147483648 ≤ v ∧ v < 2147483648 := by
  unfold getIntValue at h
  cases hl : lookupVal reg k n with
  | none => simp [hl] at h
  | some val =>
    cases val <;> simp [hl] at h
    rename_i w
    split at h <;> omega


/-! Concrete states for witnesses and counterexamples. -/

/-- A concrete state: one openable key `(0, "Sw")`, no values, no handle open. -/
def st0 : RegState :=
  { reg := { keys := [⟨0, "Sw"⟩], vals := [], denied := [] }, handles := 0, opens := [] }

/-- A concrete state: key `(0, "Sw")` holds a DWORD value `num` and a string
value `name`; key `(0, "Locked")` exists but its opening is denied. -/
def stD : RegState :=
  { reg :=
      { keys := [⟨0, "Sw"⟩, ⟨0, "Locked"⟩],
        vals := [(⟨0, "Sw"⟩, "num", .dword 7), (⟨0, "Sw"⟩, "name", .sz "hi")],
        denied := [⟨0, "Locked"⟩] },
    handles := 0, opens := [] }

/-! Write-then-read round-trip lemmas, one per typed writer/reader pair. -/

theorem WriteRead_dword (st : RegState) (root : Root) (p n : String) (d : Nat)
    (hd : d < 4294967296) (hok : (WriteDWordValue st root p n d).1 = .ok ()) :
    (ReadDWordValue (WriteDWordValue st root p n d).2 root p n).1 = .ok d := by
  obtain ⟨h1, h2, hreg⟩ := WriteDWordValue_ok st root p n d hok
  have h1' : keyPresent ((WriteDWordValue st root p n d).2).reg ⟨root, p⟩ = true := by
    rw [hreg]; exact h1
  have h2' : deniedIn ((WriteDWordValue st root p n d).2).reg ⟨root, p⟩ = false := by
    rw [hreg]; exact h2
  rw [ReadDWordValue_val _ root p n h1' h2', hreg, getDWordValue_setDWordValue,
    Nat.mod_eq_of_lt hd]

theorem WriteRead_qword (st : RegState) (root : Root) (p n : String) (d : Nat)
    (hd : d < 18446744073709551616) (hok : (WriteQWordValue st root p n d).1 = .ok ()) :
    (ReadQWordValue (WriteQWordValue st root p n d).2 root p n).1 = .ok d := by
  obtain ⟨h1, h2, hreg⟩ := WriteQWordValue_ok st root p n d hok
  have h1' : keyPresent ((WriteQWordValue st root p n d).2).reg ⟨root, p⟩ = true := by
    rw [hreg]; exact h1
  have h2' : deniedIn ((WriteQWordValue st root p n d).2).reg ⟨root, p⟩ = false := by
    rw [hreg]; exact h2
  rw [ReadQWordValue_val _ root p n h1' h2', hreg, getQWordValue_setQWordValue,
    Nat.mod_eq_of_lt hd]

theorem WriteRead_expand (st : RegState) (root : Root) (p n s : String)
    (hok : (WriteExpandStringValue st root p n s).1 = .ok ()) :
    (ReadExpandStringValue (WriteExpandStringValue st root p n s).2 root p n).1 = .ok s := by
  obtain ⟨h1, h2, hreg⟩ := WriteExpandStringValue_ok st root p n s hok
  have h1' : keyPresent ((WriteExpandStringValue st root p n s).2).reg ⟨root, p⟩ = true := by
    rw [hreg]; exact h1
  have h2' : deniedIn ((WriteExpandStringValue st root p n s).2).reg ⟨root, p⟩ = false := by
    rw [hreg]; exact h2
  rw [ReadExpandStringValue_val _ root p n h1' h2', hreg,
    getExpandStringValue_setExpandStringValue]

theorem WriteRead_multi (st : RegState) (root : Root) (p n : String) (ss : List String)
    (hok : (WriteMultiStringValue st root p n ss).1 = .ok ()) :
    (ReadMultiStringValue (WriteMultiStringValue st root p n ss).2 root p n).1 = .ok ss := by
  obtain ⟨h1, h2, hreg⟩ := WriteMultiStringValue_ok st root p n ss hok
  have h1' : keyPresent ((WriteMultiStringValue st root p n ss).2).reg ⟨root, p⟩ = true := by
    rw [hreg]; exact h1
  have h2' : deniedIn ((WriteMultiStringValue st root p n ss).2).reg ⟨root, p⟩ = false := by
    rw [hreg]; exact h2
  rw [ReadMultiStringValue_val _ root p n h1' h2', hreg, getStringsValue_setStringsValue]

theorem WriteRead_binary (st : RegState) (root : Root) (p n : String) (bs : List Nat)
    (hok : (WriteBinaryValue st root p n bs).1 = .ok ()) :
    (ReadBinaryValue (WriteBinaryValue st root p n bs).2 root p n).1 = .ok bs := by
  obtain ⟨h1, h2, hreg⟩ := WriteBinaryValue_ok st root p n bs hok
  have h1' : keyPresent ((WriteBinaryValue st root p n bs).2).reg ⟨root, p⟩ = true := by
    rw [hreg]; exact h1
  have h2' : deniedIn ((WriteBinaryValue st root p n bs).2).reg ⟨root, p⟩ = false := by
    rw [hreg]; exact h2
  rw [ReadBinaryValue_val _ root p n h1' h2', hreg, getBinaryValue_setBinaryValue]

theorem WriteRead_int32 (st : RegState) (root : Root) (p n : String) (d : Int)
    (hlo : -2147483648 ≤ d) (hhi : d < 2147483648)
    (hok : (WriteInt32Value st root p n d).1 = .ok ()) :
    (ReadInt32Value (WriteInt32Value st root p n d).2 root p n).1 = .ok d := by
  obtain ⟨h1, h2, hreg⟩ := WriteInt32Value_ok st root p n d hok
  have h1' : keyPresent ((WriteInt32Value st root p n d).2).reg ⟨root, p⟩ = true := by
    rw [hreg]; exact h1
  have h2' : deniedIn ((WriteInt32Value st root p n d).2).reg ⟨root, p⟩ = false := by
    rw [hreg]; exact h2
  rw [ReadInt32Value_val _ root p n h1' h2', hreg, getIntValue_setIntValue,
    int32_bits_roundtrip d hlo hhi]

theorem WriteRead_int64 (st : RegState) (root : Root) (p n : String) (d : Int)
    (hok : (WriteInt64Value st root p n d).1 = .ok ()) :
    (ReadInt64Value (WriteInt64Value st root p n d).2 root p n).1 = .ok (toInt32 d) := by
  obtain ⟨h1, h2, hreg⟩ := WriteInt64Value_ok st root p n d hok
  have h1' : keyPresent ((WriteInt64Value st root p n d).2).reg ⟨root, p⟩ = true := by
    rw [hreg]; exact h1
  have h2' : deniedIn ((WriteInt64Value st root p n d).2).reg ⟨root, p⟩ = false := by
    rw [hreg]; exact h2
  rw [ReadInt64Value_val _ root p n h1' h2', hreg, getIntValue_setIntValue,
    int32_bits_roundtrip (toInt32 d) (toInt32_range d).1 (toInt32_range d).2]

theorem ReadInt64Value_ok (st : RegState) (root : Root) (p n : String) (v : Int)
    (h : (ReadInt64Value st root p n).1 = .ok v) :
    getIntValue st.reg ⟨root, p⟩ n = .ok v := by
  unfold ReadInt64Value at h
  cases ho : (openKey st root p QUERY_VALUE).1 with
  | error e => simp [ho] at h
  | ok k =>
    have hk := (openKey_fst_ok ho).1
    simp [ho, openKey_snd_reg, hk] at h
    cases hg : getIntValue st.reg ⟨root, p⟩ n with
    | error e => simp [hg] at h
    | ok w => simp [hg] at h; rw [h]

theorem getStringValue_not_readable (reg : Registry) (k : KeyId) (n : String) (v : RegVal)
    (hl : lookupVal reg k n = some v) (hsr : stringReadable v = false) :
    getStringValue reg k n = .error .typeMismatch := by
  unfold getStringValue
  rw [hl]
  cases v <;> simp [stringReadable] at hsr ⊢


/-! The claims. -/

/-- Claim C1, counterexample: the typed write/read round-trip fails for the
Int64 pair. Writing 2147483648 (= 2^31, a valid int64) with `WriteInt64Value`
succeeds, but reading it back with `ReadInt64Value` yields -2147483648, which
differs from the original value. -/
theorem C1_int64_roundtrip_fails :
    (WriteInt64Value st0 0 "Sw" "v" 2147483648).1 = .ok () ∧
    (ReadInt64Value (WriteInt64Value st0 0 "Sw" "v" 2147483648).2 0 "Sw" "v").1 =
      .ok (-2147483648) ∧
    (-2147483648 : Int) ≠ 2147483648 :=
  ⟨rfl, rfl, by decide⟩

/-- Claim C1, amended: for DWORD, QWORD, expandable string, multi-string,
binary and Int32 values, writing with the typed writer and reading with the
matching typed reader returns the original value unchanged (for the numeric
types, any value of the Go argument type, i.e. within the machine width); the
package has no plain-string writer; for Int64 the round-trip preserves exactly
the inputs representable as int32, because `WriteInt64Value` narrows its input
with `int32(data)`. In particular writing QWORD 123456789012 and reading it
back yields exactly 123456789012 with nil error. -/
theorem C1_roundtrip :
    (∀ st (root : Root) (p n : String) (d : Nat), d < 4294967296 →
        (WriteDWordValue st root p n d).1 = .ok () →
        (ReadDWordValue (WriteDWordValue st root p n d).2 root p n).1 = .ok d)
  ∧ (∀ st (root : Root) (p n : String) (d : Nat), d < 18446744073709551616 →
        (WriteQWordValue st root p n d).1 = .ok () →
        (ReadQWordValue (WriteQWordValue st root p n d).2 root p n).1 = .ok d)
  ∧ (∀ st (root : Root) (p n s : String),
        (WriteExpandStringValue st root p n s).1 = .ok () →
        (ReadExpandStringValue (WriteExpandStringValue st root p n s).2 root p n).1 = .ok s)
  ∧ (∀ st (root : Root) (p n : String) (ss : List String),
        (WriteMultiStringValue st root p n ss).1 = .ok () →
        (ReadMultiStringValue (WriteMultiStringValue st root p n ss).2 root p n).1 = .ok ss)
  ∧ (∀ st (root : Root) (p n : String) (bs : List Nat),
        (WriteBinaryValue st root p n bs).1 = .ok () →
        (ReadBinaryValue (WriteBinaryValue st root p n bs).2 root p n).1 = .ok bs)
  ∧ (∀ st (root : Root) (p n : String) (d : Int), -2147483648 ≤ d → d < 2147483648 →
        (WriteInt32Value st root p n d).1 = .ok () →
        (ReadInt32Value (WriteInt32Value st root p n d).2 root p n).1 = .ok d)
  ∧ (∀ st (root : Root) (p n : String) (d : Int), -2147483648 ≤ d → d < 2147483648 →
        (WriteInt64Value st root p n d).1 = .ok () →
        (ReadInt64Value (WriteInt64Value st root p n d).2 root p n).1 = .ok d) :=
  ⟨WriteRead_dword, WriteRead_qword, WriteRead_expand, WriteRead_multi, WriteRead_binary,
   fun st root p n d hlo hhi hok => WriteRead_int32 st root p n d hlo hhi hok,
   fun st root p n d hlo hhi hok => by
     rw [WriteRead_int64 st root p n d hok, (toInt32_eq_self d).mpr ⟨hlo, hhi⟩]⟩

/-- Claim C1, witness: the spec's own example, writing QWORD 123456789012 and
reading it back, evaluated at the concrete state `st0`. -/
theorem C1_roundtrip_witness :
    (WriteQWordValue st0 0 "Sw" "q" 123456789012).1 = .ok () ∧
    (ReadQWordValue (WriteQWordValue st0 0 "Sw" "q" 123456789012).2 0 "Sw" "q").1 =
      .ok 123456789012 :=
  ⟨rfl, C1_roundtrip.2.1 st0 0 "Sw" "q" 123456789012 (by decide) rfl⟩

/-- Claim C2, counterexample: `CreateKey` does not release the handle it
opens: starting from a state with zero open handles, after `CreateKey`
returns, one handle is still open, and the opened key is what it returns. -/
theorem C2_createKey_leaks_handle :
    (CreateKey st0 0 "New").1 = .ok ⟨0, "New"⟩ ∧ st0.handles = 0 ∧
      ((CreateKey st0 0 "New").2).handles = 1 :=
  ⟨rfl, rfl, rfl⟩

/-- Claim C2, amended: `CreateKey` opens a handle and returns it to the caller
without closing it (the open-handle count grows by one); every other function
of the package releases every handle it opens before returning, on every exit
path, so the open-handle count is unchanged. -/
theorem C2_handle_discipline :
    (∀ st (root : Root) (p : String) (k : KeyId), (CreateKey st root p).1 = .ok k →
        ((CreateKey st root p).2).handles = st.handles + 1)
  ∧ (∀ st (root : Root) (p n : String), ((ReadDWordValue st root p n).2).handles = st.handles)
  ∧ (∀ st (root : Root) (p n : String) (d : Nat),
        ((WriteDWordValue st root p n d).2).handles = st.handles)
  ∧ (∀ st (root : Root) (p n : String), ((ReadBinaryValue st root p n).2).handles = st.handles)
  ∧ (∀ st (root : Root) (p n : String) (d : List Nat),
        ((WriteBinaryValue st root p n d).2).handles = st.handles)
  ∧ (∀ st (root : Root) (p n : String), ((DeleteValue st root p n).2).handles = st.handles)
  ∧ (∀ st (root : Root) (p s : String), ((DeleteSubKey st root p s).2).handles = st.handles)
  ∧ (∀ st (root : Root) (p : String), ((KeyExists st root p).2).handles = st.handles)
  ∧ (∀ st (root : Root) (p n : String), ((ValueExists st root p n).2).handles = st.handles)
  ∧ (∀ st (root : Root) (p : String), ((EnumerateSubKeys st root p).2).handles = st.handles)
  ∧ (∀ st (root : Root) (p : String), ((EnumerateValues st root p).2).handles = st.handles)
  ∧ (∀ st (root : Root) (p n d : String),
        ((ReadStringValueWithDefault st root p n d).2).handles = st.handles)
  ∧ (∀ st (root : Root) (p n : String),
        ((ReadMultiStringValue st root p n).2).handles = st.handles)
  ∧ (∀ st (root : Root) (p n : String) (d : List String),
        ((WriteMultiStringValue st root p n d).2).handles = st.handles)
  ∧ (∀ st (root : Root) (p n : String), ((ReadQWordValue st root p n).2).handles = st.handles)
  ∧ (∀ st (root : Root) (p n : String) (d : Nat),
        ((WriteQWordValue st root p n d).2).handles = st.handles)
  ∧ (∀ st (root : Root) (p n : String),
        ((ReadExpandStringValue st root p n).2).handles = st.handles)
  ∧ (∀ st (root : Root) (p n d : String),
        ((WriteExpandStringValue st root p n d).2).handles = st.handles)
  ∧ (∀ st (root : Root) (p n : String), ((ReadInt32Value st root p n).2).handles = st.handles)
  ∧ (∀ st (root : Root) (p n : String) (d : Int),
        ((WriteInt32Value st root p n d).2).handles = st.handles)
  ∧ (∀ st (root : Root) (p n : String), ((ReadInt64Value st root p n).2).handles = st.handles)
  ∧ (∀ st (root : Root) (p n : String) (d : Int),
        ((WriteInt64Value st root p n d).2).handles = st.handles)
  ∧ (∀ st (root : Root) (p : String), ((DeleteKey st root p).2).handles = st.handles) :=
  ⟨fun st root p k h => (CreateKey_ok st root p k h).2.2.1,
   ReadDWordValue_handles, WriteDWordValue_handles, ReadBinaryValue_handles,
   WriteBinaryValue_handles, DeleteValue_handles, DeleteSubKey_handles, KeyExists_handles,
   ValueExists_handles, EnumerateSubKeys_handles, EnumerateValues_handles,
   ReadStringValueWithDefault_handles, ReadMultiStringValue_handles,
   WriteMultiStringValue_handles, ReadQWordValue_handles, WriteQWordValue_handles,
   ReadExpandStringValue_handles, WriteExpandStringValue_handles, ReadInt32Value_handles,
   WriteInt32Value_handles, ReadInt64Value_handles, WriteInt64Value_handles,
   DeleteKey_handles⟩

/-- Claim C2, witness: the `CreateKey` clause applied at the concrete state
`st0`, which has zero open handles. -/
theorem C2_handle_discipline_witness :
    ((CreateKey st0 0 "New").2).handles = st0.handles + 1 :=
  C2_handle_discipline.1 st0 0 "New" ⟨0, "New"⟩ rfl

/-- Claim C3: `ReadStringValueWithDefault` returns the supplied default with
nil error when the key cannot be opened or the string value cannot be read,
returns the stored string with nil error otherwise, and never returns an
error. -/
theorem C3_default_semantics :
    (∀ st (root : Root) (p n d : String) (e : RegError),
        (openKey st root p QUERY_VALUE).1 = .error e →
        (ReadStringValueWithDefault st root p n d).1 = .ok d)
  ∧ (∀ st (root : Root) (p n d : String) (e : RegError),
        getStringValue st.reg ⟨root, p⟩ n = .error e →
        (ReadStringValueWithDefault st root p n d).1 = .ok d)
  ∧ (∀ st (root : Root) (p n d : String) (k : KeyId) (s : String),
        (openKey st root p QUERY_VALUE).1 = .ok k →
        getStringValue st.reg ⟨root, p⟩ n = .ok s →
        (ReadStringValueWithDefault st root p n d).1 = .ok s)
  ∧ (∀ st (root : Root) (p n d : String), ∃ s,
        (ReadStringValueWithDefault st root p n d).1 = .ok s) :=
  ⟨ReadStringValueWithDefault_openFail, ReadStringValueWithDefault_readFail,
   ReadStringValueWithDefault_found, ReadStringValueWithDefault_never_err⟩

/-- Claim C3, witness: at the concrete state `stD`, a missing key and a
missing value both yield the default with nil error, and an existing string
value is returned as stored. -/
theorem C3_default_semantics_witness :
    (ReadStringValueWithDefault stD 0 "Missing" "name" "dflt").1 = .ok "dflt" ∧
    (ReadStringValueWithDefault stD 0 "Sw" "other" "dflt").1 = .ok "dflt" ∧
    (ReadStringValueWithDefault stD 0 "Sw" "name" "dflt").1 = .ok "hi" :=
  ⟨C3_default_semantics.1 stD 0 "Missing" "name" "dflt" .keyNotFound rfl,
   C3_default_semantics.2.1 stD 0 "Sw" "other" "dflt" .valueNotFound rfl,
   C3_default_semantics.2.2.1 stD 0 "Sw" "name" "dflt" ⟨0, "Sw"⟩ "hi" rfl rfl⟩

/-- Claim C4: every typed reader other than the defaulting string reader
returns a non-nil error when the named value does not exist. -/
theorem C4_missing_value_errors (st : RegState) (root : Root) (p n : String)
    (h : lookupVal st.reg ⟨root, p⟩ n = none) :
    isErr (ReadDWordValue st root p n).1 = true ∧
    isErr (ReadQWordValue st root p n).1 = true ∧
    isErr (ReadBinaryValue st root p n).1 = true ∧
    isErr (ReadMultiStringValue st root p n).1 = true ∧
    isErr (ReadExpandStringValue st root p n).1 = true ∧
    isErr (ReadInt32Value st root p n).1 = true ∧
    isErr (ReadInt64Value st root p n).1 = true :=
  ⟨ReadDWordValue_missing st root p n h, ReadQWordValue_missing st root p n h,
   ReadBinaryValue_missing st root p n h, ReadMultiStringValue_missing st root p n h,
   ReadExpandStringValue_missing st root p n h, ReadInt32Value_missing st root p n h,
   ReadInt64Value_missing st root p n h⟩

/-- Claim C4, witness: all seven readers evaluated on the concrete state `st0`
at a value name that is not stored. -/
theorem C4_missing_value_errors_witness :
    isErr (ReadDWordValue st0 0 "Sw" "nothere").1 = true ∧
    isErr (ReadQWordValue st0 0 "Sw" "nothere").1 = true ∧
    isErr (ReadBinaryValue st0 0 "Sw" "nothere").1 = true ∧
    isErr (ReadMultiStringValue st0 0 "Sw" "nothere").1 = true ∧
    isErr (ReadExpandStringValue st0 0 "Sw" "nothere").1 = true ∧
    isErr (ReadInt32Value st0 0 "Sw" "nothere").1 = true ∧
    isErr (ReadInt64Value st0 0 "Sw" "nothere").1 = true :=
  C4_missing_value_errors st0 0 "Sw" "nothere" rfl

/-- Claim C5: `KeyExists` returns true immediately after `CreateKey` succeeds
on that path, and false after `DeleteKey` succeeds on that path. -/
theorem C5_keyExists :
    (∀ st (root : Root) (p : String) (k : KeyId),
        (CreateKey st root p).1 = .ok k →
        (KeyExists (CreateKey st root p).2 root p).1 = true)
  ∧ (∀ st (root : Root) (p : String),
        (DeleteKey st root p).1 = .ok () →
        (KeyExists (DeleteKey st root p).2 root p).1 = false) :=
  ⟨fun st root p k h => by
      obtain ⟨hk, hd, hh, hreg⟩ := CreateKey_ok st root p k h
      rw [KeyExists_val, hreg, keyPresent_addKey_self, deniedIn_addKey]
      simp [hd],
   fun st root p h => by
      have hreg := DeleteKey_ok st root p h
      rw [KeyExists_val, hreg, keyPresent_removeKey_self]
      simp⟩

/-- Claim C5, witness: creating `(0, "New")` in `st0` then checking existence
gives true; deleting `(0, "Sw")` from `st0` then checking gives false. -/
theorem C5_keyExists_witness :
    (KeyExists (CreateKey st0 0 "New").2 0 "New").1 = true ∧
    (KeyExists (DeleteKey st0 0 "Sw").2 0 "Sw").1 = false :=
  ⟨C5_keyExists.1 st0 0 "New" ⟨0, "New"⟩ rfl, C5_keyExists.2 st0 0 "Sw" rfl⟩

/-- Claim C6: `DeleteValue` returns a non-nil error when the named value does
not exist, and when it succeeds the deleted name is absent from the result of
a subsequent `EnumerateValues` on that key. -/
theorem C6_deleteValue :
    (∀ st (root : Root) (p n : String), lookupVal st.reg ⟨root, p⟩ n = none →
        isErr (DeleteValue st root p n).1 = true)
  ∧ (∀ st (root : Root) (p n : String) (l : List String),
        (DeleteValue st root p n).1 = .ok () →
        (EnumerateValues (DeleteValue st root p n).2 root p).1 = .ok l →
        n ∉ l) :=
  ⟨DeleteValue_missing,
   fun st root p n l hok henum => by
      obtain ⟨h1, h2, hreg⟩ := DeleteValue_ok st root p n hok
      have h1' : keyPresent ((DeleteValue st root p n).2).reg ⟨root, p⟩ = true := by
        rw [hreg, keyPresent_removeVal]; exact h1
      have h2' : deniedIn ((DeleteValue st root p n).2).reg ⟨root, p⟩ = false := by
        rw [hreg, deniedIn_removeVal]; exact h2
      rw [EnumerateValues_val _ root p h1' h2'] at henum
      simp only [Except.ok.injEq] at henum
      rw [← henum, hreg]
      exact not_mem_readValueNames_removeVal st.reg ⟨root, p⟩ n⟩

/-- Claim C6, witness: at the concrete state `stD`, deleting the absent value
`ghost` errors, and after deleting the stored value `num`, enumeration of the
key's value names (concretely `["name"]`) no longer contains `num`. -/
theorem C6_deleteValue_witness :
    isErr (DeleteValue stD 0 "Sw" "ghost").1 = true ∧
    "num" ∉ (["name"] : List String) :=
  ⟨C6_deleteValue.1 stD 0 "Sw" "ghost" rfl,
   C6_deleteValue.2 stD 0 "Sw" "num" ["name"] rfl rfl⟩

/-- Claim C7: the access right each function passes to the key open it
performs: all typed readers, the defaulting reader, both existence checks and
value enumeration open with `QUERY_VALUE`; all typed writers and both
handle-based delete operations open with `WRITE`; subkey enumeration opens
with `ENUMERATE_SUB_KEYS`; only `CreateKey` uses `ALL_ACCESS`; and `DeleteKey`
performs no key open of its own. -/
theorem C7_access_rights :
    (∀ st (root : Root) (p n : String),
        ((ReadDWordValue st root p n).2).opens = st.opens ++ [QUERY_VALUE])
  ∧ (∀ st (root : Root) (p n : String) (d : Nat),
        ((WriteDWordValue st root p n d).2).opens = st.opens ++ [WRITE])
  ∧ (∀ st (root : Root) (p n : String),
        ((ReadBinaryValue st root p n).2).opens = st.opens ++ [QUERY_VALUE])
  ∧ (∀ st (root : Root) (p n : String) (d : List Nat),
        ((WriteBinaryValue st root p n d).2).opens = st.opens ++ [WRITE])
  ∧ (∀ st (root : Root) (p n : String),
        ((DeleteValue st root p n).2).opens = st.opens ++ [WRITE])
  ∧ (∀ st (root : Root) (p s : String),
        ((DeleteSubKey st root p s).2).opens = st.opens ++ [WRITE])
  ∧ (∀ st (root : Root) (p : String),
        ((KeyExists st root p).2).opens = st.opens ++ [QUERY_VALUE])
  ∧ (∀ st (root : Root) (p n : String),
        ((ValueExists st root p n).2).opens = st.opens ++ [QUERY_VALUE])
  ∧ (∀ st (root : Root) (p : String),
        ((EnumerateSubKeys st root p).2).opens = st.opens ++ [ENUMERATE_SUB_KEYS])
  ∧ (∀ st (root : Root) (p : String),
        ((EnumerateValues st root p).2).opens = st.opens ++ [QUERY_VALUE])
  ∧ (∀ st (root : Root) (p : String),
        ((CreateKey st root p).2).opens = st.opens ++ [ALL_ACCESS])
  ∧ (∀ st (root : Root) (p n d : String),
        ((ReadStringValueWithDefault st root p n d).2).opens = st.opens ++ [QUERY_VALUE])
  ∧ (∀ st (root : Root) (p n : String),
        ((ReadMultiStringValue st root p n).2).opens = st.opens ++ [QUERY_VALUE])
  ∧ (∀ st (root : Root) (p n : String) (d : List String),
        ((WriteMultiStringValue st root p n d).2).opens = st.opens ++ [WRITE])
  ∧ (∀ st (root : Root) (p n : String),
        ((ReadQWordValue st root p n).2).opens = st.opens ++ [QUERY_VALUE])
  ∧ (∀ st (root : Root) (p n : String) (d : Nat),
        ((WriteQWordValue st root p n d).2).opens = st.opens ++ [WRITE])
  ∧ (∀ st (root : Root) (p n : String),
        ((ReadExpandStringValue st root p n).2).opens = st.opens ++ [QUERY_VALUE])
  ∧ (∀ st (root : Root) (p n d : String),
        ((WriteExpandStringValue st root p n d).2).opens = st.opens ++ [WRITE])
  ∧ (∀ st (root : Root) (p n : String),
        ((ReadInt32Value st root p n).2).opens = st.opens ++ [QUERY_VALUE])
  ∧ (∀ st (root : Root) (p n : String) (d : Int),
        ((WriteInt32Value st root p n d).2).opens = st.opens ++ [WRITE])
  ∧ (∀ st (root : Root) (p n : String),
        ((ReadInt64Value st root p n).2).opens = st.opens ++ [QUERY_VALUE])
  ∧ (∀ st (root : Root) (p n : String) (d : Int),
        ((WriteInt64Value st root p n d).2).opens = st.opens ++ [WRITE])
  ∧ (∀ st (root : Root) (p : String), ((DeleteKey st root p).2).opens = st.opens) :=
  ⟨ReadDWordValue_opens, WriteDWordValue_opens, ReadBinaryValue_opens,
   WriteBinaryValue_opens, DeleteValue_opens, DeleteSubKey_opens, KeyExists_opens,
   ValueExists_opens, EnumerateSubKeys_opens, EnumerateValues_opens, CreateKey_opens,
   ReadStringValueWithDefault_opens, ReadMultiStringValue_opens,
   WriteMultiStringValue_opens, ReadQWordValue_opens, WriteQWordValue_opens,
   ReadExpandStringValue_opens, WriteExpandStringValue_opens, ReadInt32Value_opens,
   WriteInt32Value_opens, ReadInt64Value_opens, WriteInt64Value_opens, DeleteKey_opens⟩

/-- Claim C8: every error a function returns is exactly the error produced by
the underlying OS registry call it delegates to (the key open, or the typed
get/set/delete/enumerate), with no wrapping or transformation; the defaulting
string reader never returns an error (and the existence checks return plain
booleans). -/
theorem C8_error_passthrough :
    (∀ st (root : Root) (p n : String) (e : RegError),
        (ReadDWordValue st root p n).1 = .error e →
        (openKey st root p QUERY_VALUE).1 = .error e ∨
          getDWordValue st.reg ⟨root, p⟩ n = .error e)
  ∧ (∀ st (root : Root) (p n : String) (e : RegError),
        (ReadQWordValue st root p n).1 = .error e →
        (openKey st root p QUERY_VALUE).1 = .error e ∨
          getQWordValue st.reg ⟨root, p⟩ n = .error e)
  ∧ (∀ st (root : Root) (p n : String) (e : RegError),
        (ReadBinaryValue st root p n).1 = .error e →
        (openKey st root p QUERY_VALUE).1 = .error e ∨
          getBinaryValue st.reg ⟨root, p⟩ n = .error e)
  ∧ (∀ st (root : Root) (p n : String) (e : RegError),
        (ReadMultiStringValue st root p n).1 = .error e →
        (openKey st root p QUERY_VALUE).1 = .error e ∨
          getStringsValue st.reg ⟨root, p⟩ n = .error e)
  ∧ (∀ st (root : Root) (p n : String) (e : RegError),
        (ReadExpandStringValue st root p n).1 = .error e →
        (openKey st root p QUERY_VALUE).1 = .error e ∨
          getExpandStringValue st.reg ⟨root, p⟩ n = .error e)
  ∧ (∀ st (root : Root) (p n : String) (e : RegError),
        (ReadInt32Value st root p n).1 = .error e →
        (openKey st root p QUERY_VALUE).1 = .error e ∨
          getIntValue st.reg ⟨root, p⟩ n = .error e)
  ∧ (∀ st (root : Root) (p n : String) (e : RegError),
        (ReadInt64Value st root p n).1 = .error e →
        (openKey st root p QUERY_VALUE).1 = .error e ∨
          getIntValue st.reg ⟨root, p⟩ n = .error e)
  ∧ (∀ st (root : Root) (p n : String) (d : Nat) (e : RegError),
        (WriteDWordValue st root p n d).1 = .error e →
        (openKey st root p WRITE).1 = .error e)
  ∧ (∀ st (root : Root) (p n : String) (d : List Nat) (e : RegError),
        (WriteBinaryValue st root p n d).1 = .error e →
        (openKey st root p WRITE).1 = .error e)
  ∧ (∀ st (root : Root) (p n : String) (d : List String) (e : RegError),
        (WriteMultiStringValue st root p n d).1 = .error e →
        (openKey st root p WRITE).1 = .error e)
  ∧ (∀ st (root : Root) (p n : String) (d : Nat) (e : RegError),
        (WriteQWordValue st root p n d).1 = .error e →
        (openKey st root p WRITE).1 = .error e)
  ∧ (∀ st (root : Root) (p n d : String) (e : RegError),
        (WriteExpandStringValue st root p n d).1 = .error e →
        (openKey st root p WRITE).1 = .error e)
  ∧ (∀ st (root : Root) (p n : String) (d : Int) (e : RegError),
        (WriteInt32Value st root p n d).1 = .error e →
        (openKey st root p WRITE).1 = .error e)
  ∧ (∀ st (root : Root) (p n : String) (d : Int) (e : RegError),
        (WriteInt64Value st root p n d).1 = .error e →
        (openKey st root p WRITE).1 = .error e)
  ∧ (∀ st (root : Root) (p n : String) (e : RegError),
        (DeleteValue st root p n).1 = .error e →
        (openKey st root p WRITE).1 = .error e ∨
          osDeleteValue st.reg ⟨root, p⟩ n = .error e)
  ∧ (∀ st (root : Root) (p s : String) (e : RegError),
        (DeleteSubKey st root p s).1 = .error e →
        (openKey st root p WRITE).1 = .error e ∨
          osDeleteKey st.reg ⟨root, joinPath p s⟩ = .error e)
  ∧ (∀ st (root : Root) (p : String) (e : RegError),
        (DeleteKey st root p).1 = .error e → osDeleteKey st.reg ⟨root, p⟩ = .error e)
  ∧ (∀ st (root : Root) (p : String) (e : RegError),
        (EnumerateSubKeys st root p).1 = .error e →
        (openKey st root p ENUMERATE_SUB_KEYS).1 = .error e)
  ∧ (∀ st (root : Root) (p : String) (e : RegError),
        (EnumerateValues st root p).1 = .error e →
        (openKey st root p QUERY_VALUE).1 = .error e)
  ∧ (∀ st (root : Root) (p : String) (e : RegError),
        (CreateKey st root p).1 = .error e → (createKeyOS st root p).1 = .error e)
  ∧ (∀ st (root : Root) (p n d : String), ∃ s,
        (ReadStringValueWithDefault st root p n d).1 = .ok s) :=
  ⟨ReadDWordValue_err, ReadQWordValue_err, ReadBinaryValue_err, ReadMultiStringValue_err,
   ReadExpandStringValue_err, ReadInt32Value_err, ReadInt64Value_err, WriteDWordValue_err,
   WriteBinaryValue_err, WriteMultiStringValue_err, WriteQWordValue_err,
   WriteExpandStringValue_err, WriteInt32Value_err, WriteInt64Value_err, DeleteValue_err,
   DeleteSubKey_err, DeleteKey_err, EnumerateSubKeys_err, EnumerateValues_err,
   CreateKey_err, ReadStringValueWithDefault_never_err⟩

/-- Claim C8, witness: reading a DWORD under a missing key at `st0` returns
exactly the open failure of the underlying OS open call. -/
theorem C8_error_passthrough_witness :
    (openKey st0 0 "None" QUERY_VALUE).1 = .error .keyNotFound ∨
      getDWordValue st0.reg ⟨0, "None"⟩ "v" = .error .keyNotFound :=
  C8_error_passthrough.1 st0 0 "None" "v" .keyNotFound rfl

/-- Claim C9: `ValueExists` returns true exactly when the key opens with the
query right and a string read of the value succeeds; hence it returns false
for an existing value whose stored type is not readable as a string, and
false (it can only return a boolean) on any open failure, access denial
included. -/
theorem C9_valueExists_semantics :
    (∀ st (root : Root) (p n : String),
        (ValueExists st root p n).1 = true ↔
          ((openKey st root p QUERY_VALUE).1 = .ok ⟨root, p⟩ ∧
            ∃ s, getStringValue st.reg ⟨root, p⟩ n = .ok s))
  ∧ (∀ st (root : Root) (p n : String) (e : RegError),
        (openKey st root p QUERY_VALUE).1 = .error e →
        (ValueExists st root p n).1 = false)
  ∧ (∀ st (root : Root) (p n : String) (v : RegVal),
        lookupVal st.reg ⟨root, p⟩ n = some v → stringReadable v = false →
        (ValueExists st root p n).1 = false) :=
  ⟨ValueExists_val,
   fun st root p n e h => by unfold ValueExists; simp [h],
   fun st root p n v hl hsr => by
      have hg := getStringValue_not_readable st.reg ⟨root, p⟩ n v hl hsr
      unfold ValueExists
      cases ho : (openKey st root p QUERY_VALUE).1 with
      | error e => simp [ho]
      | ok k =>
        have hk := (openKey_fst_ok ho).1
        simp [ho, openKey_snd_reg, hk, hg]⟩

/-- Claim C9, witness: at the concrete state `stD`, `ValueExists` is false on
the access-denied key `Locked`, and false on the existing DWORD-typed value
`num` (not readable as a string). -/
theorem C9_valueExists_semantics_witness :
    (ValueExists stD 0 "Locked" "name").1 = false ∧
    (ValueExists stD 0 "Sw" "num").1 = false :=
  ⟨C9_valueExists_semantics.2.1 stD 0 "Locked" "name" .accessDenied rfl,
   C9_valueExists_semantics.2.2 stD 0 "Sw" "num" (.dword 7) rfl rfl⟩

/-- Claim C10: `WriteInt64Value` stores only the low 32 bits of its input
(the DWORD written is the two's-complement 32-bit wrap `int32(d)`);
`ReadInt64Value` always returns a value in the int32 range; and the Int64
write/read pair preserves exactly the inputs in the int32 range, since
`toInt32 d = d` holds precisely there (and the pair's read-back is always
`toInt32 d`). -/
theorem C10_int64_truncation :
    (∀ st (root : Root) (p n : String) (d : Int),
        (WriteInt64Value st root p n d).1 = .ok () →
        lookupVal ((WriteInt64Value st root p n d).2).reg ⟨root, p⟩ n =
          some (.dword (d % 4294967296).toNat))
  ∧ (∀ st (root : Root) (p n : String) (d : Int),
        (WriteInt64Value st root p n d).1 = .ok () →
        (ReadInt64Value (WriteInt64Value st root p n d).2 root p n).1 = .ok (toInt32 d))
  ∧ (∀ st (root : Root) (p n : String) (v : Int),
        (ReadInt64Value st root p n).1 = .ok v → -2147483648 ≤ v ∧ v < 2147483648)
  ∧ (∀ d : Int, toInt32 d = d ↔ (-2147483648 ≤ d ∧ d < 2147483648)) :=
  ⟨fun st root p n d hok => by
      obtain ⟨h1, h2, hreg⟩ := WriteInt64Value_ok st root p n d hok
      rw [hreg, lookupVal_setIntValue]
      have hm : toInt32 d % 4294967296 = d % 4294967296 := by unfold toInt32; omega
      rw [hm],
   WriteRead_int64,
   fun st root p n v h => getIntValue_range st.reg ⟨root, p⟩ n v (ReadInt64Value_ok st root p n v h),
   toInt32_eq_self⟩

/-- Claim C10, witness: writing 4294967297 (= 2^32 + 1) with `WriteInt64Value`
at `st0` and reading back with `ReadInt64Value` yields `toInt32 4294967297`,
which is 1, not the original value. -/
theorem C10_int64_truncation_witness :
    (ReadInt64Value (WriteInt64Value st0 0 "Sw" "w" 4294967297).2 0 "Sw" "w").1 =
      .ok (toInt32 4294967297) ∧ toInt32 4294967297 = 1 :=
  ⟨C10_int64_truncation.2.1 st0 0 "Sw" "w" 4294967297 rfl, by decide⟩

end Winreg
